import Mathlib

/-!
Verification of the clearing-house core (vAMM pricing, position accounting,
funding-rate controller, insurance-fund share accounting) against its
natural-language specification.

Rust checked integer arithmetic is embedded as `Nat`/`Int` computations with
explicit range checks that mirror `checked_add`/`checked_sub`/`checked_mul`/
`checked_div` on the concrete machine-integer widths (`u64`, `u128`, `i64`,
`i128`, and the 192-bit wide-integer type `U192`).  Fallible operations return
`Except ErrorCode`.
-/

namespace Drift

set_option maxRecDepth 100000

/-- Error codes surfaced by the embedded fragment of the clearing house.
Arithmetic failures (`math_error!`) map to `MathError`; fallible integer
casts map to `CastingFailure`. -/
inductive ErrorCode where
  | MathError
  | CastingFailure
  | TradeSizeTooLarge
  | DefaultError
  | InvalidPositionLastFundingRate
  | InvalidOracle
  | MaxNumberOfPositions
  | UserHasNoPositionInMarket
  deriving DecidableEq, Repr

/-- `ClearingHouseResult` from `error.rs`. -/
abbrev CHResult (α : Type) : Type := Except ErrorCode α

/-! ## Machine-integer bounds -/

def U64_MOD : Nat := 2 ^ 64
def U128_MOD : Nat := 2 ^ 128
def U192_MOD : Nat := 2 ^ 192
def I64_BOUND : Int := 2 ^ 63
def I128_BOUND : Int := 2 ^ 127

/-! ## Checked arithmetic (`SafeMath` / `checked_*`) -/

def u64_checked (x : Nat) : CHResult Nat :=
  if x < U64_MOD then .ok x else .error .MathError

def u64_add (a b : Nat) : CHResult Nat := u64_checked (a + b)

def u64_sub (a b : Nat) : CHResult Nat :=
  if b ≤ a then .ok (a - b) else .error .MathError

def u64_mul (a b : Nat) : CHResult Nat := u64_checked (a * b)

def u64_div (a b : Nat) : CHResult Nat :=
  if b = 0 then .error .MathError else .ok (a / b)

def u128_checked (x : Nat) : CHResult Nat :=
  if x < U128_MOD then .ok x else .error .MathError

def u128_add (a b : Nat) : CHResult Nat := u128_checked (a + b)

def u128_sub (a b : Nat) : CHResult Nat :=
  if b ≤ a then .ok (a - b) else .error .MathError

def u128_mul (a b : Nat) : CHResult Nat := u128_checked (a * b)

def u128_div (a b : Nat) : CHResult Nat :=
  if b = 0 then .error .MathError else .ok (a / b)

/-- Truncated division, the semantics of Rust's signed `/`. -/
def int_tdiv (a b : Int) : Int := Int.tdiv a b

def i64_checked (x : Int) : CHResult Int :=
  if -I64_BOUND ≤ x ∧ x < I64_BOUND then .ok x else .error .MathError

def i64_add (a b : Int) : CHResult Int := i64_checked (a + b)

def i64_sub (a b : Int) : CHResult Int := i64_checked (a - b)

def i64_mul (a b : Int) : CHResult Int := i64_checked (a * b)

def i64_div (a b : Int) : CHResult Int :=
  if b = 0 then .error .MathError else i64_checked (int_tdiv a b)

def i128_checked (x : Int) : CHResult Int :=
  if -I128_BOUND ≤ x ∧ x < I128_BOUND then .ok x else .error .MathError

def i128_add (a b : Int) : CHResult Int := i128_checked (a + b)

def i128_sub (a b : Int) : CHResult Int := i128_checked (a - b)

def i128_mul (a b : Int) : CHResult Int := i128_checked (a * b)

def i128_div (a b : Int) : CHResult Int :=
  if b = 0 then .error .MathError else i128_checked (int_tdiv a b)

/-! ## Casts (`Cast` trait / `cast_to_*`) -/

/-- `i128 -> u128` (or any signed-to-unsigned cast whose source value always
fits the target when non-negative). -/
def cast_int_to_u128 (x : Int) : CHResult Nat :=
  if 0 ≤ x then .ok x.toNat else .error .CastingFailure

def cast_int_to_u64 (x : Int) : CHResult Nat :=
  if 0 ≤ x ∧ x < (U64_MOD : Int) then .ok x.toNat else .error .CastingFailure

def cast_nat_to_i128 (x : Nat) : CHResult Int :=
  if (x : Int) < I128_BOUND then .ok x else .error .CastingFailure

def cast_nat_to_i64 (x : Nat) : CHResult Int :=
  if (x : Int) < I64_BOUND then .ok x else .error .CastingFailure

def cast_nat_to_u64 (x : Nat) : CHResult Nat :=
  if x < U64_MOD then .ok x else .error .CastingFailure

def cast_int_to_i64 (x : Int) : CHResult Int :=
  if -I64_BOUND ≤ x ∧ x < I64_BOUND then .ok x else .error .CastingFailure

/-! ## 192-bit wide integer (`bn.rs` `U192`) -/

def u192_mul (a b : Nat) : CHResult Nat :=
  if a * b < U192_MOD then .ok (a * b) else .error .MathError

def u192_div (a b : Nat) : CHResult Nat :=
  if b = 0 then .error .MathError else .ok (a / b)

def u192_try_to_u128 (x : Nat) : CHResult Nat :=
  if x < U128_MOD then .ok x else .error .CastingFailure

/-! ## `Except` plumbing lemmas -/

theorem chbind_ok_iff {α β : Type} (x : CHResult α) (f : α → CHResult β) (b : β) :
    x >>= f = .ok b ↔ ∃ a, x = .ok a ∧ f a = .ok b := by
  cases x <;> simp [Bind.bind, Except.bind]

theorem chbind_ok (a : α) (f : α → CHResult β) :
    ((Except.ok a : CHResult α) >>= f) = f a := rfl

theorem chbind_error (e : ErrorCode) (f : α → CHResult β) :
    ((Except.error e : CHResult α) >>= f) = .error e := rfl

/-! ## Insurance-fund share accounting (`math/insurance.rs`) -/

/-- Modelled from the spec: the proportional multiply-then-divide helper
`get_proportion_u128` lives in `math/helpers.rs`, which is not under `src/`.
Per spec section 4.1 and the design note in section 9, the intermediate product is
formed in full (192-bit wide) before dividing, and the quotient must fit back
into a `u128`. -/
def get_proportion_u128 (value numerator denominator : Nat) : CHResult Nat := do
  let prod ← u192_mul value numerator
  let q ← u192_div prod denominator
  u192_try_to_u128 q

/-- `vault_amount_to_if_shares` from `math/insurance.rs` lines 15-41. -/
def vault_amount_to_if_shares (amount total_if_shares insurance_fund_vault_balance : Nat) :
    CHResult Nat :=
  if 0 < insurance_fund_vault_balance then
    get_proportion_u128 amount total_if_shares insurance_fund_vault_balance
  else
    if total_if_shares = 0 then .ok amount else .error .DefaultError

/-- `if_shares_to_vault_amount` from `math/insurance.rs` lines 43-68. -/
def if_shares_to_vault_amount (n_shares total_if_shares insurance_fund_vault_balance : Nat) :
    CHResult Nat :=
  if n_shares ≤ total_if_shares then
    if 0 < total_if_shares then do
      let amt ← get_proportion_u128 insurance_fund_vault_balance n_shares total_if_shares
      cast_nat_to_u64 amt
    else .ok 0
  else .error .DefaultError

/-! ## Constant-product swap (`math/amm.rs` `calculate_swap_output`) -/

inductive SwapDirection where
  | Add
  | Remove
  deriving DecidableEq, Repr

/-- `calculate_swap_output` from `math/amm.rs` lines 702-735.  The invariant
`sqrt_k * sqrt_k` is formed first as a `U192`; the `Remove` direction is then
rejected with `TradeSizeTooLarge` when the swap amount exceeds the input
reserve; the new output reserve is `invariant / new_input_reserve`. -/
def calculate_swap_output (swap_amount input_asset_reserve : Nat) (direction : SwapDirection)
    (invariant_sqrt : Nat) : CHResult (Nat × Nat) := do
  let invariant ← u192_mul invariant_sqrt invariant_sqrt
  if direction = .Remove ∧ input_asset_reserve < swap_amount then
    .error .TradeSizeTooLarge
  else do
    let new_input_asset_reserve ←
      match direction with
      | .Add => u128_add input_asset_reserve swap_amount
      | .Remove => u128_sub input_asset_reserve swap_amount
    let q ← u192_div invariant new_input_asset_reserve
    let new_output_asset_reserve ← u192_try_to_u128 q
    .ok (new_output_asset_reserve, new_input_asset_reserve)

/-! ## u32 checked arithmetic (market user counters) -/

def U32_MOD : Nat := 2 ^ 32

def u32_add (a b : Nat) : CHResult Nat :=
  if a + b < U32_MOD then .ok (a + b) else .error .MathError

def u32_sub (a b : Nat) : CHResult Nat :=
  if b ≤ a then .ok (a - b) else .error .MathError

/-! ## Position / market data model

`state/perp_market.rs` and the newer `state/user.rs` are not under `src/`;
the structures below carry exactly the fields touched by the embedded
functions, with the integer widths used by the embedded arithmetic
(`i64` position fields, `i128` market/AMM aggregates, `u128` reserves). -/

structure HistoricalOracleData where
  last_oracle_price : Int
  last_oracle_conf : Nat
  last_oracle_delay : Int
  last_oracle_price_twap : Int
  last_oracle_price_twap_5min : Int
  last_oracle_price_twap_ts : Int

structure AMM where
  base_asset_reserve : Nat
  quote_asset_reserve : Nat
  sqrt_k : Nat
  peg_multiplier : Nat
  terminal_quote_asset_reserve : Nat
  net_base_asset_amount : Int
  base_asset_amount_with_amm : Int
  base_asset_amount_long : Int
  base_asset_amount_short : Int
  quote_asset_amount : Int
  quote_entry_amount_long : Int
  quote_entry_amount_short : Int
  quote_break_even_amount_long : Int
  quote_break_even_amount_short : Int
  cumulative_funding_rate_long : Int
  cumulative_funding_rate_short : Int
  last_funding_rate : Int
  last_funding_rate_long : Int
  last_funding_rate_short : Int
  last_24h_avg_funding_rate : Int
  last_funding_rate_ts : Int
  funding_period : Int
  net_revenue_since_last_funding : Int
  curve_update_intensity : Nat
  base_spread : Nat
  long_spread : Nat
  short_spread : Nat
  max_spread : Nat
  last_oracle_reserve_price_spread_pct : Int
  last_oracle_conf_pct : Nat
  last_oracle_normalised_price : Int
  min_base_asset_reserve : Nat
  max_base_asset_reserve : Nat
  order_step_size : Nat
  amm_jit_intensity : Nat
  last_mark_price_twap : Nat
  last_mark_price_twap_5min : Nat
  last_bid_price_twap : Nat
  last_ask_price_twap : Nat
  last_mark_price_twap_ts : Int
  mark_std : Nat
  historical_oracle_data : HistoricalOracleData

structure PerpMarket where
  amm : AMM
  number_of_users : Nat
  number_of_users_with_base : Nat
  next_funding_rate_record_id : Nat

structure PerpPosition where
  base_asset_amount : Int
  quote_asset_amount : Int
  quote_entry_amount : Int
  quote_break_even_amount : Int
  last_cumulative_funding_rate : Int
  open_bids : Int
  open_asks : Int
  settled_pnl : Int

/-- `PositionDelta` from `controller/position.rs` lines 75-79 (`i64` fields). -/
structure PositionDelta where
  quote_asset_amount : Int
  base_asset_amount : Int

inductive PositionUpdateType where
  | Open
  | Increase
  | Reduce
  | Close
  | Flip
  deriving DecidableEq, Repr

/-- Modelled from the spec: `get_position_update_type` lives in
`math/position.rs`, which is not under `src/`.  Spec section 4.5: classification is
purely a function of the signs and relative magnitudes of the current
`base_asset_amount` and the incoming signed delta — same sign: Increase;
opposite sign and smaller magnitude: Reduce; equal magnitude: Close; larger
magnitude: Flip; flat position: Open. -/
def get_position_update_type (position : PerpPosition) (delta : PositionDelta) :
    PositionUpdateType :=
  if position.base_asset_amount = 0 then .Open
  else if (0 < position.base_asset_amount ∧ 0 < delta.base_asset_amount) ∨
      (position.base_asset_amount < 0 ∧ delta.base_asset_amount < 0) then .Increase
  else if delta.base_asset_amount.natAbs < position.base_asset_amount.natAbs then .Reduce
  else if delta.base_asset_amount.natAbs = position.base_asset_amount.natAbs then .Close
  else .Flip

/-- Modelled from the spec: step-size conformance check from
`math/orders.rs`, which is not under `src/`.  A zero step size fails the
checked remainder; otherwise the amount must divide evenly. -/
def is_multiple_of_step_size (amount step : Nat) : CHResult Bool :=
  if step = 0 then .error .MathError else .ok (decide (amount % step = 0))

/-- Modelled from the spec: `standardize_base_asset_amount` from
`math/orders.rs`, which is not under `src/` — rounds an amount down to the
nearest multiple of the step size (checked remainder then subtract). -/
def standardize_base_asset_amount (amount step : Nat) : CHResult Nat :=
  if step = 0 then .error .MathError else .ok (amount - amount % step)

/-! ## `update_quote_asset_amount` (`controller/position.rs` lines 531-553)

The embedding threads the mutable `position`/`market` state explicitly and
returns the in-memory state reached so far even when an error aborts the
call (the on-chain host rolls the records back at the transaction
boundary, not the function itself). -/

def update_quote_asset_amount (position : PerpPosition) (market : PerpMarket) (delta : Int) :
    PerpPosition × PerpMarket × CHResult Unit :=
  if delta = 0 then (position, market, .ok ())
  else
    match (if position.quote_asset_amount = 0 ∧ position.base_asset_amount = 0 then
        u32_add market.number_of_users 1
      else .ok market.number_of_users) with
    | .error e => (position, market, .error e)
    | .ok users1 =>
      let market1 := { market with number_of_users := users1 }
      match i64_add position.quote_asset_amount delta with
      | .error e => (position, market1, .error e)
      | .ok new_qa =>
        let position1 := { position with quote_asset_amount := new_qa }
        match i128_add market1.amm.quote_asset_amount delta with
        | .error e => (position1, market1, .error e)
        | .ok new_amm_qa =>
          let market2 := { market1 with amm := { market1.amm with quote_asset_amount := new_amm_qa } }
          match (if position1.quote_asset_amount = 0 ∧ position1.base_asset_amount = 0 then
              u32_sub market2.number_of_users 1
            else .ok market2.number_of_users) with
          | .error e => (position1, market2, .error e)
          | .ok users2 => (position1, { market2 with number_of_users := users2 }, .ok ())

/-! ## `update_position_and_market` (`controller/position.rs` lines 81-373) -/

/-- Entry/break-even/pnl locals per update type
(`controller/position.rs` lines 102-163).  Rust's `.abs()` on the `i64`
delta/base amounts is modelled as the mathematical absolute value. -/
def position_entry_calc (position : PerpPosition) (delta : PositionDelta)
    (update_type : PositionUpdateType) : CHResult (Int × Int × Int) :=
  match update_type with
  | .Open | .Increase => do
    let nqe ← i64_add position.quote_entry_amount delta.quote_asset_amount
    let nqb ← i64_add position.quote_break_even_amount delta.quote_asset_amount
    .ok (nqe, nqb, 0)
  | .Reduce | .Close => do
    let num1 ← i128_mul position.quote_entry_amount (delta.base_asset_amount.natAbs : Int)
    let q1 ← i128_div num1 (position.base_asset_amount.natAbs : Int)
    let q1c ← cast_int_to_i64 q1
    let nqe ← i64_sub position.quote_entry_amount q1c
    let num2 ← i128_mul position.quote_break_even_amount (delta.base_asset_amount.natAbs : Int)
    let q2 ← i128_div num2 (position.base_asset_amount.natAbs : Int)
    let q2c ← cast_int_to_i64 q2
    let nqb ← i64_sub position.quote_break_even_amount q2c
    let d1 ← i64_sub position.quote_entry_amount nqe
    let pnl ← i64_add d1 delta.quote_asset_amount
    .ok (nqe, nqb, pnl)
  | .Flip => do
    let num ← i128_mul delta.quote_asset_amount (position.base_asset_amount.natAbs : Int)
    let q ← i128_div num (delta.base_asset_amount.natAbs : Int)
    let qc ← cast_int_to_i64 q
    let nqb ← i64_sub delta.quote_asset_amount qc
    let d1 ← i64_sub delta.quote_asset_amount nqb
    let pnl ← i64_add position.quote_entry_amount d1
    .ok (nqb, nqb, pnl)

/-- Market open-interest counters (`controller/position.rs` lines 165-178). -/
def position_oi_counters (market : PerpMarket) (position : PerpPosition)
    (update_type : PositionUpdateType) (new_quote_asset_amount new_base_asset_amount : Int) :
    PerpMarket × CHResult Unit :=
  match update_type with
  | .Open =>
    match (if position.quote_asset_amount = 0 ∧ position.base_asset_amount = 0 then
        u32_add market.number_of_users 1
      else .ok market.number_of_users) with
    | .error e => (market, .error e)
    | .ok u1 =>
      let m1 := { market with number_of_users := u1 }
      match u32_add m1.number_of_users_with_base 1 with
      | .error e => (m1, .error e)
      | .ok u2 => ({ m1 with number_of_users_with_base := u2 }, .ok ())
  | .Close =>
    match (if new_base_asset_amount = 0 ∧ new_quote_asset_amount = 0 then
        u32_sub market.number_of_users 1
      else .ok market.number_of_users) with
    | .error e => (market, .error e)
    | .ok u1 =>
      let m1 := { market with number_of_users := u1 }
      match u32_sub m1.number_of_users_with_base 1 with
      | .error e => (m1, .error e)
      | .ok u2 => ({ m1 with number_of_users_with_base := u2 }, .ok ())
  | _ => (market, .ok ())

/-- Market long/short aggregates (`controller/position.rs` lines 185-315),
threading each fallible mutation in source order. -/
def position_market_aggs (market : PerpMarket) (position : PerpPosition) (delta : PositionDelta)
    (update_type : PositionUpdateType)
    (new_base_asset_amount new_quote_entry_amount new_quote_break_even_amount : Int) :
    PerpMarket × CHResult Unit :=
  match update_type with
  | .Open | .Increase =>
    if 0 < new_base_asset_amount then
      match i128_add market.amm.base_asset_amount_long delta.base_asset_amount with
      | .error e => (market, .error e)
      | .ok v1 =>
        let m1 := { market with amm := { market.amm with base_asset_amount_long := v1 } }
        match i128_add m1.amm.quote_entry_amount_long delta.quote_asset_amount with
        | .error e => (m1, .error e)
        | .ok v2 =>
          let m2 := { m1 with amm := { m1.amm with quote_entry_amount_long := v2 } }
          match i128_add m2.amm.quote_break_even_amount_long delta.quote_asset_amount with
          | .error e => (m2, .error e)
          | .ok v3 =>
            ({ m2 with amm := { m2.amm with quote_break_even_amount_long := v3 } }, .ok ())
    else
      match i128_add market.amm.base_asset_amount_short delta.base_asset_amount with
      | .error e => (market, .error e)
      | .ok v1 =>
        let m1 := { market with amm := { market.amm with base_asset_amount_short := v1 } }
        match i128_add m1.amm.quote_entry_amount_short delta.quote_asset_amount with
        | .error e => (m1, .error e)
        | .ok v2 =>
          let m2 := { m1 with amm := { m1.amm with quote_entry_amount_short := v2 } }
          match i128_add m2.amm.quote_break_even_amount_short delta.quote_asset_amount with
          | .error e => (m2, .error e)
          | .ok v3 =>
            ({ m2 with amm := { m2.amm with quote_break_even_amount_short := v3 } }, .ok ())
  | .Reduce | .Close =>
    if 0 < position.base_asset_amount then
      match i128_add market.amm.base_asset_amount_long delta.base_asset_amount with
      | .error e => (market, .error e)
      | .ok v1 =>
        let m1 := { market with amm := { market.amm with base_asset_amount_long := v1 } }
        match i64_sub position.quote_entry_amount new_quote_entry_amount with
        | .error e => (m1, .error e)
        | .ok d1 =>
          match i128_sub m1.amm.quote_entry_amount_long d1 with
          | .error e => (m1, .error e)
          | .ok v2 =>
            let m2 := { m1 with amm := { m1.amm with quote_entry_amount_long := v2 } }
            match i64_sub position.quote_break_even_amount new_quote_break_even_amount with
            | .error e => (m2, .error e)
            | .ok d2 =>
              match i128_sub m2.amm.quote_break_even_amount_long d2 with
              | .error e => (m2, .error e)
              | .ok v3 =>
                ({ m2 with amm := { m2.amm with quote_break_even_amount_long := v3 } }, .ok ())
    else
      match i128_add market.amm.base_asset_amount_short delta.base_asset_amount with
      | .error e => (market, .error e)
      | .ok v1 =>
        let m1 := { market with amm := { market.amm with base_asset_amount_short := v1 } }
        match i64_sub position.quote_entry_amount new_quote_entry_amount with
        | .error e => (m1, .error e)
        | .ok d1 =>
          match i128_sub m1.amm.quote_entry_amount_short d1 with
          | .error e => (m1, .error e)
          | .ok v2 =>
            let m2 := { m1 with amm := { m1.amm with quote_entry_amount_short := v2 } }
            match i64_sub position.quote_break_even_amount new_quote_break_even_amount with
            | .error e => (m2, .error e)
            | .ok d2 =>
              match i128_sub m2.amm.quote_break_even_amount_short d2 with
              | .error e => (m2, .error e)
              | .ok v3 =>
                ({ m2 with amm := { m2.amm with quote_break_even_amount_short := v3 } }, .ok ())
  | .Flip =>
    if 0 < new_base_asset_amount then
      match i128_sub market.amm.base_asset_amount_short position.base_asset_amount with
      | .error e => (market, .error e)
      | .ok v1 =>
        let m1 := { market with amm := { market.amm with base_asset_amount_short := v1 } }
        match i128_add m1.amm.base_asset_amount_long new_base_asset_amount with
        | .error e => (m1, .error e)
        | .ok v2 =>
          let m2 := { m1 with amm := { m1.amm with base_asset_amount_long := v2 } }
          match i128_sub m2.amm.quote_entry_amount_short position.quote_entry_amount with
          | .error e => (m2, .error e)
          | .ok v3 =>
            let m3 := { m2 with amm := { m2.amm with quote_entry_amount_short := v3 } }
            match i128_add m3.amm.quote_entry_amount_long new_quote_entry_amount with
            | .error e => (m3, .error e)
            | .ok v4 =>
              let m4 := { m3 with amm := { m3.amm with quote_entry_amount_long := v4 } }
              match i128_sub m4.amm.quote_break_even_amount_short position.quote_break_even_amount with
              | .error e => (m4, .error e)
              | .ok v5 =>
                let m5 := { m4 with amm := { m4.amm with quote_break_even_amount_short := v5 } }
                match i128_add m5.amm.quote_break_even_amount_long new_quote_break_even_amount with
                | .error e => (m5, .error e)
                | .ok v6 =>
                  ({ m5 with amm := { m5.amm with quote_break_even_amount_long := v6 } }, .ok ())
    else
      match i128_sub market.amm.base_asset_amount_long position.base_asset_amount with
      | .error e => (market, .error e)
      | .ok v1 =>
        let m1 := { market with amm := { market.amm with base_asset_amount_long := v1 } }
        match i128_add m1.amm.base_asset_amount_short new_base_asset_amount with
        | .error e => (m1, .error e)
        | .ok v2 =>
          let m2 := { m1 with amm := { m1.amm with base_asset_amount_short := v2 } }
          match i128_sub m2.amm.quote_entry_amount_long position.quote_entry_amount with
          | .error e => (m2, .error e)
          | .ok v3 =>
            let m3 := { m2 with amm := { m2.amm with quote_entry_amount_long := v3 } }
            match i128_add m3.amm.quote_entry_amount_short new_quote_entry_amount with
            | .error e => (m3, .error e)
            | .ok v4 =>
              let m4 := { m3 with amm := { m3.amm with quote_entry_amount_short := v4 } }
              match i128_sub m4.amm.quote_break_even_amount_long position.quote_break_even_amount with
              | .error e => (m4, .error e)
              | .ok v5 =>
                let m5 := { m4 with amm := { m4.amm with quote_break_even_amount_long := v5 } }
                match i128_add m5.amm.quote_break_even_amount_short new_quote_break_even_amount with
                | .error e => (m5, .error e)
                | .ok v6 =>
                  ({ m5 with amm := { m5.amm with quote_break_even_amount_short := v6 } }, .ok ())

/-- Funding-staleness guard (`controller/position.rs` lines 317-338).
`get_direction` is modelled from the spec (sign of `base_asset_amount`,
flat counts as Long). -/
def position_funding_check (position : PerpPosition) (market : PerpMarket) : CHResult Unit :=
  if 0 ≤ position.base_asset_amount then
    if position.base_asset_amount ≠ 0 then do
      let c ← cast_int_to_i64 market.amm.cumulative_funding_rate_long
      if position.last_cumulative_funding_rate = c then .ok ()
      else .error .InvalidPositionLastFundingRate
    else .ok ()
  else do
    let c ← cast_int_to_i64 market.amm.cumulative_funding_rate_short
    if position.last_cumulative_funding_rate = c then .ok ()
    else .error .InvalidPositionLastFundingRate

/-- `update_position_and_market` from `controller/position.rs` lines 81-373.
Returns the in-memory `(position, market)` state together with the result;
on an error the state reached so far is returned (the host transaction, not
this function, performs rollback). -/
def update_position_and_market (position : PerpPosition) (market : PerpMarket)
    (delta : PositionDelta) : PerpPosition × PerpMarket × CHResult Int :=
  if delta.base_asset_amount = 0 then
    match update_quote_asset_amount position market delta.quote_asset_amount with
    | (p, m, .ok _) => (p, m, .ok delta.quote_asset_amount)
    | (p, m, .error e) => (p, m, .error e)
  else
    let update_type := get_position_update_type position delta
    match i64_add position.quote_asset_amount delta.quote_asset_amount with
    | .error e => (position, market, .error e)
    | .ok new_quote_asset_amount =>
      match i64_add position.base_asset_amount delta.base_asset_amount with
      | .error e => (position, market, .error e)
      | .ok new_base_asset_amount =>
        match position_entry_calc position delta update_type with
        | .error e => (position, market, .error e)
        | .ok (new_quote_entry_amount, new_quote_break_even_amount, pnl) =>
          match position_oi_counters market position update_type new_quote_asset_amount
              new_base_asset_amount with
          | (m1, .error e) => (position, m1, .error e)
          | (m1, .ok _) =>
            match i128_add m1.amm.quote_asset_amount delta.quote_asset_amount with
            | .error e => (position, m1, .error e)
            | .ok amm_qa =>
              let m2 := { m1 with amm := { m1.amm with quote_asset_amount := amm_qa } }
              match position_market_aggs m2 position delta update_type new_base_asset_amount
                  new_quote_entry_amount new_quote_break_even_amount with
              | (m3, .error e) => (position, m3, .error e)
              | (m3, .ok _) =>
                match position_funding_check position m3 with
                | .error e => (position, m3, .error e)
                | .ok _ =>
                  let last_cum_calc : CHResult Int :=
                    match update_type with
                    | .Close => .ok 0
                    | .Open | .Flip =>
                      if 0 < new_base_asset_amount then
                        cast_int_to_i64 m3.amm.cumulative_funding_rate_long
                      else
                        cast_int_to_i64 m3.amm.cumulative_funding_rate_short
                    | _ => .ok position.last_cumulative_funding_rate
                  match last_cum_calc with
                  | .error e => (position, m3, .error e)
                  | .ok new_last_cum =>
                    let position1 :=
                      { position with last_cumulative_funding_rate := new_last_cum }
                    match is_multiple_of_step_size position1.base_asset_amount.natAbs
                        m3.amm.order_step_size with
                    | .error e => (position1, m3, .error e)
                    | .ok conforms =>
                      if conforms then
                        ({ position1 with
                            quote_asset_amount := new_quote_asset_amount,
                            quote_entry_amount := new_quote_entry_amount,
                            quote_break_even_amount := new_quote_break_even_amount,
                            base_asset_amount := new_base_asset_amount }, m3, .ok pnl)
                      else (position1, m3, .error .DefaultError)

/-! ## Concrete records for witnesses and counterexamples -/

def hod0 : HistoricalOracleData :=
  { last_oracle_price := 0, last_oracle_conf := 0, last_oracle_delay := 0,
    last_oracle_price_twap := 0, last_oracle_price_twap_5min := 0,
    last_oracle_price_twap_ts := 0 }

def amm0 : AMM :=
  { base_asset_reserve := 0, quote_asset_reserve := 0, sqrt_k := 0, peg_multiplier := 0,
    terminal_quote_asset_reserve := 0, net_base_asset_amount := 0,
    base_asset_amount_with_amm := 0, base_asset_amount_long := 0, base_asset_amount_short := 0,
    quote_asset_amount := 0, quote_entry_amount_long := 0, quote_entry_amount_short := 0,
    quote_break_even_amount_long := 0, quote_break_even_amount_short := 0,
    cumulative_funding_rate_long := 0, cumulative_funding_rate_short := 0,
    last_funding_rate := 0, last_funding_rate_long := 0, last_funding_rate_short := 0,
    last_24h_avg_funding_rate := 0, last_funding_rate_ts := 0, funding_period := 3600,
    net_revenue_since_last_funding := 0, curve_update_intensity := 0, base_spread := 0,
    long_spread := 0, short_spread := 0, max_spread := 0,
    last_oracle_reserve_price_spread_pct := 0, last_oracle_conf_pct := 0,
    last_oracle_normalised_price := 0, min_base_asset_reserve := 0,
    max_base_asset_reserve := 0, order_step_size := 1, amm_jit_intensity := 0,
    last_mark_price_twap := 0, last_mark_price_twap_5min := 0, last_bid_price_twap := 0,
    last_ask_price_twap := 0, last_mark_price_twap_ts := 0, mark_std := 0,
    historical_oracle_data := hod0 }

def position_c1 : PerpPosition :=
  { base_asset_amount := 10, quote_asset_amount := -100, quote_entry_amount := -100,
    quote_break_even_amount := -95, last_cumulative_funding_rate := 0,
    open_bids := 0, open_asks := 0, settled_pnl := 0 }

def market_c1 : PerpMarket :=
  { amm := amm0, number_of_users := 1, number_of_users_with_base := 1,
    next_funding_rate_record_id := 0 }

def delta_c1 : PositionDelta := { quote_asset_amount := 60, base_asset_amount := -5 }

/-- The position that `update_position_and_market position_c1 market_c1 delta_c1`
produces (a Reduce by half: entry `-100 -> -50`, break even `-95 -> -48`). -/
def position_c1_after : PerpPosition :=
  { base_asset_amount := 5, quote_asset_amount := -40, quote_entry_amount := -50,
    quote_break_even_amount := -48, last_cumulative_funding_rate := 0,
    open_bids := 0, open_asks := 0, settled_pnl := 0 }

def amm_c1_after : AMM :=
  { amm0 with
      quote_asset_amount := 60
      base_asset_amount_long := -5
      quote_entry_amount_long := 50
      quote_break_even_amount_long := 47 }

def market_c1_after : PerpMarket :=
  { amm := amm_c1_after, number_of_users := 1, number_of_users_with_base := 1,
    next_funding_rate_record_id := 0 }

def position_c3a : PerpPosition :=
  { base_asset_amount := 10, quote_asset_amount := -100, quote_entry_amount := -100,
    quote_break_even_amount := -95, last_cumulative_funding_rate := 0,
    open_bids := 0, open_asks := 0, settled_pnl := 0 }

def market_c3a : PerpMarket :=
  { amm := { amm0 with cumulative_funding_rate_long := 100 },
    number_of_users := 1, number_of_users_with_base := 1, next_funding_rate_record_id := 0 }

def delta_c3a : PositionDelta := { quote_asset_amount := 7, base_asset_amount := 5 }

/-- The market state left in memory when `update_position_and_market
position_c3a market_c3a delta_c3a` aborts on the stale-funding check:
the quote/entry aggregates are already updated. -/
def market_c3a_after : PerpMarket :=
  { amm := { amm0 with
        cumulative_funding_rate_long := 100
        quote_asset_amount := 7
        base_asset_amount_long := 5
        quote_entry_amount_long := 7
        quote_break_even_amount_long := 7 },
    number_of_users := 1, number_of_users_with_base := 1, next_funding_rate_record_id := 0 }

def position_c3b : PerpPosition :=
  { base_asset_amount := 0, quote_asset_amount := 0, quote_entry_amount := 0,
    quote_break_even_amount := 0, last_cumulative_funding_rate := 0,
    open_bids := 0, open_asks := 0, settled_pnl := 0 }

def market_c3b : PerpMarket :=
  { amm := { amm0 with quote_asset_amount := 2 ^ 127 - 1 },
    number_of_users := 0, number_of_users_with_base := 0, next_funding_rate_record_id := 0 }

def delta_c3b : PositionDelta := { quote_asset_amount := 1, base_asset_amount := 0 }

def position_c3c : PerpPosition :=
  { base_asset_amount := 10, quote_asset_amount := -100, quote_entry_amount := -100,
    quote_break_even_amount := -95, last_cumulative_funding_rate := 5,
    open_bids := 0, open_asks := 0, settled_pnl := 0 }

def market_c3c : PerpMarket :=
  { amm := { amm0 with
        cumulative_funding_rate_long := 5
        order_step_size := 0 },
    number_of_users := 5, number_of_users_with_base := 5, next_funding_rate_record_id := 0 }

def delta_c3c : PositionDelta := { quote_asset_amount := 100, base_asset_amount := -10 }

/-! ## Protocol constants

Modelled from the spec: `math/constants.rs` is not under `src/`.  Values are
pinned by the repository's own golden tests (`math/amm.rs` tests: BTC peg
`22_100_000_000` quoting `$22,100`, oracle price `22050 * PRICE_PRECISION =
22050000000`, reserves `488 * AMM_RESERVE_PRECISION`, spread asserts with
`BID_ASK_SPREAD_PRECISION_I128 / 20` as 5%). -/

def BID_ASK_SPREAD_PRECISION : Nat := 1000000
def BID_ASK_SPREAD_PRECISION_I128 : Int := 1000000
def DEFAULT_LARGE_BID_ASK_FACTOR : Nat := 10000000
def MAX_BID_ASK_INVENTORY_SKEW_FACTOR : Nat := 10000000
def PRICE_PRECISION : Nat := 1000000
def PRICE_PRECISION_I128 : Int := 1000000
def PEG_PRECISION : Nat := 1000000
def PRICE_TO_PEG_PRECISION_RATIO : Nat := 1
def AMM_RESERVE_PRECISION : Nat := 10 ^ 9
def QUOTE_PRECISION : Nat := 1000000
def AMM_TO_QUOTE_PRECISION_RATIO_I128 : Int := 10 ^ 3
def AMM_TIMES_PEG_TO_QUOTE_PRECISION_RATIO_I128 : Int := 10 ^ 9
def FUNDING_RATE_BUFFER : Nat := 10 ^ 3
def ONE_HOUR : Int := 3600
def TWENTY_FOUR_HOUR : Int := 86400

/-- Rust release-mode wrapping semantics for a plain (unchecked) `i128` add. -/
def wrap_i128 (x : Int) : Int := (x + I128_BOUND) % (2 * I128_BOUND) - I128_BOUND

/-! ## Market open bids/asks (`math/amm.rs` lines 97-125) -/

def _calculate_market_open_bids_asks
    (base_asset_reserve min_base_asset_reserve max_base_asset_reserve : Nat) :
    CHResult (Int × Int) := do
  let max_asks ←
    if base_asset_reserve < max_base_asset_reserve then do
      let d ← u128_sub max_base_asset_reserve base_asset_reserve
      let v ← cast_nat_to_i128 d
      pure (-v)
    else pure 0
  let max_bids ←
    if min_base_asset_reserve < base_asset_reserve then do
      let d ← u128_sub base_asset_reserve min_base_asset_reserve
      cast_nat_to_i128 d
    else pure 0
  .ok (max_bids, max_asks)

/-! ## Spread capping and calculation (`math/amm.rs` lines 127-306) -/

/-- The shrink step of `cap_to_max_spread` (`math/amm.rs` lines 136-148):
when the half-spread sum exceeds `max_spread`, clamp the larger side to
`max_spread` and give the remainder to the smaller side. -/
def cap_shrink (long_spread short_spread max_spread total_spread : Nat) :
    CHResult (Nat × Nat) :=
  if max_spread < total_spread then
    if short_spread < long_spread then do
      let l := min max_spread long_spread
      let s ← u128_sub max_spread l
      pure (l, s)
    else do
      let s := min max_spread short_spread
      let l ← u128_sub max_spread s
      pure (l, s)
  else pure (long_spread, short_spread)

/-- `cap_to_max_spread` from `math/amm.rs` lines 127-163: shrink step
followed by the `new_total_spread <= max_spread` validation. -/
def cap_to_max_spread (long_spread short_spread max_spread : Nat) : CHResult (Nat × Nat) := do
  let total_spread ← u128_add long_spread short_spread
  let (long_spread, short_spread) ← cap_shrink long_spread short_spread max_spread total_spread
  let new_total_spread ← u128_add long_spread short_spread
  if new_total_spread ≤ max_spread then .ok (long_spread, short_spread)
  else .error .DefaultError

/-- Oracle retreat (`math/amm.rs` lines 184-202): floor the side facing the
oracle at `|oracle_reserve_spread_pct| + conf_pct`. -/
def spread_oracle_retreat (long_spread short_spread : Nat)
    (last_oracle_reserve_price_spread_pct : Int) (last_oracle_conf_pct : Nat) :
    CHResult (Nat × Nat) :=
  if last_oracle_reserve_price_spread_pct < 0 then do
    let v ← u128_add last_oracle_reserve_price_spread_pct.natAbs last_oracle_conf_pct
    pure (max long_spread v, short_spread)
  else do
    let v ← u128_add last_oracle_reserve_price_spread_pct.natAbs last_oracle_conf_pct
    pure (long_spread, max short_spread v)

/-- Inventory-skew application (`math/amm.rs` lines 228-240): scale the side
matching the AMM's net inventory direction. -/
def spread_inventory_apply (long_spread short_spread : Nat) (net_base_asset_amount : Int)
    (inventory_scale_capped : Nat) : CHResult (Nat × Nat) :=
  if 0 < net_base_asset_amount then do
    let m ← u128_mul long_spread inventory_scale_capped
    let d ← u128_div m BID_ASK_SPREAD_PRECISION
    pure (d, short_spread)
  else
    if net_base_asset_amount < 0 then do
      let m ← u128_mul short_spread inventory_scale_capped
      let d ← u128_div m BID_ASK_SPREAD_PRECISION
      pure (long_spread, d)
    else pure (long_spread, short_spread)

/-- Effective-leverage application (`math/amm.rs` lines 275-298): scale both
sides by the large protective factor when the fee pool is non-positive,
otherwise scale the inventory-matching side by the capped leverage factor. -/
def spread_leverage_apply (long_spread short_spread : Nat)
    (total_fee_minus_distributions net_base_asset_amount : Int)
    (effective_leverage_capped : Nat) : CHResult (Nat × Nat) :=
  if total_fee_minus_distributions ≤ 0 then do
    let lm ← u128_mul long_spread DEFAULT_LARGE_BID_ASK_FACTOR
    let ld ← u128_div lm BID_ASK_SPREAD_PRECISION
    let sm ← u128_mul short_spread DEFAULT_LARGE_BID_ASK_FACTOR
    let sd ← u128_div sm BID_ASK_SPREAD_PRECISION
    pure (ld, sd)
  else
    if 0 < net_base_asset_amount then do
      let m ← u128_mul long_spread effective_leverage_capped
      let d ← u128_div m BID_ASK_SPREAD_PRECISION
      pure (d, short_spread)
    else do
      let m ← u128_mul short_spread effective_leverage_capped
      let d ← u128_div m BID_ASK_SPREAD_PRECISION
      pure (long_spread, d)

/-- `calculate_spread` from `math/amm.rs` lines 166-306: base half-spreads,
oracle retreat, inventory skew, effective-leverage scaling, and the final
`cap_to_max_spread` at `max(max_spread, |oracle_reserve_spread_pct|)`.
The two plain (unchecked) `+ 1` additions of the source wrap in release mode
and are modelled with explicit wrapping. -/
def calculate_spread
    (base_spread : Nat)
    (last_oracle_reserve_price_spread_pct : Int)
    (last_oracle_conf_pct : Nat)
    (max_spread : Nat)
    (quote_asset_reserve terminal_quote_asset_reserve peg_multiplier : Nat)
    (net_base_asset_amount : Int)
    (reserve_price : Nat)
    (total_fee_minus_distributions : Int)
    (base_asset_reserve min_base_asset_reserve max_base_asset_reserve : Nat) :
    CHResult (Nat × Nat) := do
  let long_spread0 := base_spread / 2
  let short_spread0 := base_spread / 2
  let (long_spread1, short_spread1) ← spread_oracle_retreat long_spread0 short_spread0
    last_oracle_reserve_price_spread_pct last_oracle_conf_pct
  -- inventory scale
  let (max_bids, max_asks) ← _calculate_market_open_bids_asks base_asset_reserve
    min_base_asset_reserve max_base_asset_reserve
  let min_side_liquidity : Int := min max_bids ((max_asks.natAbs : Int))
  let inv0 ← cast_nat_to_i128 DEFAULT_LARGE_BID_ASK_FACTOR
  let inv1 ← i128_mul net_base_asset_amount inv0
  let inv2 ← i128_div inv1 (max min_side_liquidity 1)
  let inventory_scale := inv2.natAbs
  let is_sum ← u128_add BID_ASK_SPREAD_PRECISION inventory_scale
  let inventory_scale_capped := min MAX_BID_ASK_INVENTORY_SKEW_FACTOR is_sum
  let (long_spread2, short_spread2) ← spread_inventory_apply long_spread1 short_spread1
    net_base_asset_amount inventory_scale_capped
  -- effective leverage scale
  let qar ← cast_nat_to_i128 quote_asset_reserve
  let tqar ← cast_nat_to_i128 terminal_quote_asset_reserve
  let pegi ← cast_nat_to_i128 peg_multiplier
  let nb0 ← i128_sub qar tqar
  let nb1 ← i128_mul nb0 pegi
  let net_base_asset_value ← i128_div nb1 AMM_TIMES_PEG_TO_QUOTE_PRECISION_RATIO_I128
  let rp ← cast_nat_to_i128 reserve_price
  let lb0 ← i128_mul net_base_asset_amount rp
  let local_base_asset_value ← i128_div lb0
    (AMM_TO_QUOTE_PRECISION_RATIO_I128 * PRICE_PRECISION_I128)
  let el0 ← i128_sub local_base_asset_value net_base_asset_value
  let el1 ← i128_mul (max 0 el0) BID_ASK_SPREAD_PRECISION_I128
  let effective_leverage ← i128_div el1
    (wrap_i128 (max 0 total_fee_minus_distributions + 1))
  let ec0 ← cast_int_to_u128 (max 0 effective_leverage)
  let ec1 := (ec0 + 1) % U128_MOD
  let ec2 ← u128_add BID_ASK_SPREAD_PRECISION ec1
  let effective_leverage_capped := min MAX_BID_ASK_INVENTORY_SKEW_FACTOR ec2
  let (long_spread3, short_spread3) ← spread_leverage_apply long_spread2 short_spread2
    total_fee_minus_distributions net_base_asset_amount effective_leverage_capped
  cap_to_max_spread long_spread3 short_spread3
    (max max_spread last_oracle_reserve_price_spread_pct.natAbs)

/-! ## JIT maker sizing (`math/amm_jit.rs`) -/

/-- `PositionDirection` from `controller/position.rs` lines 30-33. -/
inductive PositionDirection where
  | Long
  | Short
  deriving DecidableEq, Repr

/-- `calculate_market_open_bids_asks` from `math/amm.rs` lines 83-95. -/
def calculate_market_open_bids_asks (amm : AMM) : CHResult (Int × Int) :=
  _calculate_market_open_bids_asks amm.base_asset_reserve amm.min_base_asset_reserve
    amm.max_base_asset_reserve

/-- `calculate_clamped_jit_base_asset_amount` from `math/amm_jit.rs` lines
92-113: apply the `amm_jit_intensity` percentage, then bound by the AMM's
net base position so the fill never flips it. -/
def calculate_clamped_jit_base_asset_amount (market : PerpMarket)
    (jit_base_asset_amount : Nat) : CHResult Nat := do
  let m ← u128_mul jit_base_asset_amount market.amm.amm_jit_intensity
  let d ← u128_div m 100
  let j ← cast_nat_to_u64 d
  let max_amm_base_asset_amount ← cast_nat_to_u64 market.amm.base_asset_amount_with_amm.natAbs
  pure (min j max_amm_base_asset_amount)

/-- Wash-trade cap (`math/amm_jit.rs` lines 23-40): at most half the maker
amount; divided by 1000 when the auction price looks adversarial relative to
the oracle; zero when no valid oracle price is available. -/
def jit_max_amount (half_maker : Nat) (valid_oracle_price : Option Int)
    (auction_price : Nat) (taker_direction : PositionDirection) : CHResult Nat :=
  match valid_oracle_price with
  | some oracle_price => do
    let op ← cast_int_to_u64 oracle_price
    if taker_direction = .Long ∧ auction_price < op then
      u64_div half_maker 1000
    else
      if taker_direction = .Short ∧ op < auction_price then
        u64_div half_maker 1000
      else pure half_maker
  | none => pure 0

/-- Pre-clamp size (`math/amm_jit.rs` lines 69-73): the full maker amount
when the AMM is imbalanced, otherwise a quarter of it. -/
def jit_pre_clamp_amount (amm_is_imbalanced : Bool) (maker_base_asset_amount : Nat) :
    CHResult Nat :=
  match amm_is_imbalanced with
  | true => pure maker_base_asset_amount
  | false => u64_div maker_base_asset_amount 4

/-- `calculate_jit_base_asset_amount` from `math/amm_jit.rs` lines 16-88. -/
def calculate_jit_base_asset_amount (market : PerpMarket) (maker_base_asset_amount : Nat)
    (auction_price : Nat) (valid_oracle_price : Option Int)
    (taker_direction : PositionDirection) : CHResult Nat := do
  let half_maker ← u64_div maker_base_asset_amount 2
  let max_jit_amount ← jit_max_amount half_maker valid_oracle_price auction_price
    taker_direction
  if max_jit_amount = 0 then pure 0
  else do
    let (max_bids, max_asks) ← calculate_market_open_bids_asks market.amm
    let mb := max_bids.natAbs
    let ma := max_asks.natAbs
    let numerator := max mb ma
    let denominator := min mb ma
    let r0 ← u128_mul numerator AMM_RESERVE_PRECISION
    let ratio ← u128_div r0 denominator
    let ib0 ← u128_div AMM_RESERVE_PRECISION 10
    let imbalanced_bound ← u128_mul 15 ib0
    let amm_is_imbalanced := decide (imbalanced_bound ≤ ratio)
    let jit0 ← jit_pre_clamp_amount amm_is_imbalanced maker_base_asset_amount
    if jit0 = 0 then pure 0
    else do
      let jit1 ← calculate_clamped_jit_base_asset_amount market jit0
      let jit2 := min jit1 max_jit_amount
      standardize_base_asset_amount jit2 market.amm.order_step_size

def market_c10 : PerpMarket :=
  { amm := { amm0 with
        base_asset_reserve := 100
        min_base_asset_reserve := 50
        max_base_asset_reserve := 200
        amm_jit_intensity := 100
        base_asset_amount_with_amm := 1000
        order_step_size := 1 },
    number_of_users := 1, number_of_users_with_base := 1, next_funding_rate_record_id := 0 }

/-! ## Price and oracle machinery (`math/amm.rs`) -/

/-- `OraclePriceData` (`state/oracle.rs`; in this snapshot the price is an
`i128` and the confidence a `u128`, per the `math/amm.rs` tests). -/
structure OraclePriceData where
  price : Int
  confidence : Nat
  delay : Int
  has_sufficient_number_of_data_points : Bool

inductive TwapPeriod where
  | FundingPeriod
  | FiveMin

/-- `calculate_price` from `math/amm.rs` lines 29-44. -/
def calculate_price (quote_asset_reserve base_asset_reserve peg_multiplier : Nat) :
    CHResult Nat := do
  let peg_quote_asset_amount ← u128_mul quote_asset_reserve peg_multiplier
  let m ← u192_mul peg_quote_asset_amount PRICE_TO_PEG_PRECISION_RATIO
  let d ← u192_div m base_asset_reserve
  u192_try_to_u128 d

/-- Modelled from the spec: `AMM::reserve_price` (`state/market.rs` is not
under `src/`) prices the canonical reserves via `calculate_price`
(spec 4.3). -/
def AMM.reserve_price (amm : AMM) : CHResult Nat :=
  calculate_price amm.quote_asset_reserve amm.base_asset_reserve amm.peg_multiplier

/-- Resolve an optional precomputed reserve price (`match` at the head of
several `math/amm.rs` functions). -/
def resolve_reserve_price (amm : AMM) (precomputed_reserve_price : Option Nat) : CHResult Nat :=
  match precomputed_reserve_price with
  | some reserve_price => pure reserve_price
  | none => AMM.reserve_price amm

/-- Same resolution followed by the `cast_to_i128` used by
`normalise_oracle_price` / `calculate_oracle_reserve_price_spread`. -/
def resolve_reserve_price_i128 (amm : AMM) (precomputed_reserve_price : Option Nat) :
    CHResult Int :=
  match precomputed_reserve_price with
  | some reserve_price => cast_nat_to_i128 reserve_price
  | none => do
    let r ← AMM.reserve_price amm
    cast_nat_to_i128 r

/-- `sanitize_new_price` from `math/amm.rs` lines 441-469: cap an update to a
33% band around the previous TWAP (no normalization when the TWAP is 0). -/
def sanitize_new_price (new_price last_price_twap : Int) : CHResult Int :=
  if last_price_twap = 0 then pure new_price
  else do
    let new_price_spread ← i128_sub new_price last_price_twap
    let price_twap_33pct ← i128_div last_price_twap 3
    if price_twap_33pct.natAbs < new_price_spread.natAbs then
      if last_price_twap < new_price then i128_add last_price_twap price_twap_33pct
      else i128_sub last_price_twap price_twap_33pct
    else pure new_price

/-- `normalise_oracle_price` from `math/amm.rs` lines 871-922: pull the raw
oracle price toward the reserve price by at most 2.5 bps unless the
confidence band is wider. -/
def normalise_oracle_price (amm : AMM) (oracle_price_data : OraclePriceData)
    (precomputed_reserve_price : Option Nat) : CHResult Int := do
  let reserve_price ← resolve_reserve_price_i128 amm precomputed_reserve_price
  let reserve_price_2p5_bps ← i128_div reserve_price 4000
  let conf_int ← cast_nat_to_i128 oracle_price_data.confidence
  if oracle_price_data.price < reserve_price then do
    let a ← i128_sub reserve_price reserve_price_2p5_bps
    let b ← i128_add oracle_price_data.price conf_int
    pure (min (max a oracle_price_data.price) b)
  else do
    let a ← i128_add reserve_price reserve_price_2p5_bps
    let b ← i128_sub oracle_price_data.price conf_int
    pure (max (min a oracle_price_data.price) b)

/-- Modelled from the spec: `calculate_weighted_average` (`math/stats.rs` is
not under `src/`): `(a*w_a + b*w_b) / (w_a + w_b)` in checked `i128`
arithmetic (spec 4.1).  (The original may add a one-unit rounding bias; the
repository's oracle-TWAP golden tests reproduce under this model to within
one unit per averaging step.) -/
def calculate_weighted_average (data1 data2 weight1 weight2 : Int) : CHResult Int := do
  let denominator ← i128_add weight1 weight2
  let prev_twap ← i128_mul data1 weight1
  let latest ← i128_mul data2 weight2
  let numerator ← i128_add prev_twap latest
  i128_div numerator denominator

/-- Interpolation toward the mark TWAP over a span during which the oracle
was invalid (`math/amm.rs` lines 567-594). -/
def interpolate_oracle_price (amm : AMM) (last_mark_twap : Nat) (oracle_price period : Int) :
    CHResult Int :=
  if amm.historical_oracle_data.last_oracle_price_twap_ts < amm.last_mark_price_twap_ts then do
    let since_last_valid ← i64_sub amm.last_mark_price_twap_ts
      amm.historical_oracle_data.last_oracle_price_twap_ts
    let fsv ← i128_sub period since_last_valid
    let from_start_valid := max 1 fsv
    let lmt ← cast_nat_to_i128 last_mark_twap
    calculate_weighted_average lmt oracle_price since_last_valid from_start_valid
  else pure oracle_price

/-- `calculate_new_oracle_price_twap` from `math/amm.rs` lines 533-604. -/
def calculate_new_oracle_price_twap (amm : AMM) (now oracle_price : Int)
    (twap_period : TwapPeriod) : CHResult Int := do
  let last_mark_twap :=
    match twap_period with
    | .FundingPeriod => amm.last_mark_price_twap
    | .FiveMin => amm.last_mark_price_twap_5min
  let last_oracle_twap :=
    match twap_period with
    | .FundingPeriod => amm.historical_oracle_data.last_oracle_price_twap
    | .FiveMin => amm.historical_oracle_data.last_oracle_price_twap_5min
  let period : Int :=
    match twap_period with
    | .FundingPeriod => amm.funding_period
    | .FiveMin => 60 * 5
  let sl ← i64_sub now amm.historical_oracle_data.last_oracle_price_twap_ts
  let since_last := max 1 sl
  let fs ← i128_sub period since_last
  let from_start := max 0 fs
  let interpolated_oracle_price ← interpolate_oracle_price amm last_mark_twap oracle_price period
  calculate_weighted_average interpolated_oracle_price last_oracle_twap since_last from_start

/-- `calculate_oracle_reserve_price_spread` from `math/amm.rs` lines 852-869. -/
def calculate_oracle_reserve_price_spread (amm : AMM) (oracle_price_data : OraclePriceData)
    (precomputed_reserve_price : Option Nat) : CHResult (Int × Int) := do
  let reserve_price ← resolve_reserve_price_i128 amm precomputed_reserve_price
  let price_spread ← i128_sub reserve_price oracle_price_data.price
  pure (oracle_price_data.price, price_spread)

/-- `calculate_oracle_reserve_price_spread_pct` from `math/amm.rs` lines
924-941. -/
def calculate_oracle_reserve_price_spread_pct (amm : AMM)
    (oracle_price_data : OraclePriceData) (precomputed_reserve_price : Option Nat) :
    CHResult Int := do
  let reserve_price ← resolve_reserve_price amm precomputed_reserve_price
  let sp ← calculate_oracle_reserve_price_spread amm oracle_price_data (some reserve_price)
  let m ← i128_mul sp.2 BID_ASK_SPREAD_PRECISION_I128
  let rpi ← cast_nat_to_i128 reserve_price
  i128_div m rpi

/-- `update_oracle_price_twap` from `math/amm.rs` lines 471-526, threading the
mutated `AMM` explicitly; returns the (possibly unchanged) oracle TWAP. -/
def update_oracle_price_twap (amm : AMM) (now : Int) (oracle_price_data : OraclePriceData)
    (precomputed_reserve_price : Option Nat) : CHResult (AMM × Int) := do
  let reserve_price ← resolve_reserve_price amm precomputed_reserve_price
  let oracle_price ← normalise_oracle_price amm oracle_price_data (some reserve_price)
  let capped_oracle_update_price ← sanitize_new_price oracle_price
    amm.historical_oracle_data.last_oracle_price_twap
  if 0 < capped_oracle_update_price ∧ 0 < oracle_price then do
    let oracle_price_twap ← calculate_new_oracle_price_twap amm now
      capped_oracle_update_price .FundingPeriod
    let oracle_price_twap_5min ← calculate_new_oracle_price_twap amm now
      capped_oracle_update_price .FiveMin
    let conf0 ← u128_mul oracle_price_data.confidence BID_ASK_SPREAD_PRECISION
    let conf1 ← u128_div conf0 reserve_price
    let last_oracle_conf_pct := conf1 % U64_MOD
    let pct ← calculate_oracle_reserve_price_spread_pct amm oracle_price_data
      (some reserve_price)
    pure ({ amm with
        last_oracle_normalised_price := capped_oracle_update_price
        last_oracle_conf_pct := last_oracle_conf_pct
        last_oracle_reserve_price_spread_pct := pct
        historical_oracle_data := { amm.historical_oracle_data with
          last_oracle_price := oracle_price_data.price
          last_oracle_delay := oracle_price_data.delay
          last_oracle_price_twap_5min := oracle_price_twap_5min
          last_oracle_price_twap := oracle_price_twap
          last_oracle_price_twap_ts := now } },
      oracle_price_twap)
  else
    pure (amm, amm.historical_oracle_data.last_oracle_price_twap)

/-! ## Mark TWAP (`math/amm.rs` lines 308-439) -/

/-- Modelled from the spec: `AMM::bid_price` (`state/market.rs` is not under
`src/`): the reserve price scaled down by the short half-spread. -/
def AMM.bid_price (amm : AMM) (reserve_price : Nat) : CHResult Nat := do
  let m ← u128_mul reserve_price (BID_ASK_SPREAD_PRECISION - amm.short_spread)
  u128_div m BID_ASK_SPREAD_PRECISION

/-- Modelled from the spec: `AMM::ask_price`: the reserve price scaled up by
the long half-spread. -/
def AMM.ask_price (amm : AMM) (reserve_price : Nat) : CHResult Nat := do
  let su ← u128_add BID_ASK_SPREAD_PRECISION amm.long_spread
  let m ← u128_mul reserve_price su
  u128_div m BID_ASK_SPREAD_PRECISION

def AMM.bid_ask_price (amm : AMM) (reserve_price : Nat) : CHResult (Nat × Nat) := do
  let b ← AMM.bid_price amm reserve_price
  let a ← AMM.ask_price amm reserve_price
  pure (b, a)

/-- Modelled from the spec: `calculate_new_twap` (`math/stats.rs` is not
under `src/`): elapsed-time weighted average of the previous TWAP and the
new observation over the period window (spec 4.1, glossary). -/
def calculate_new_twap (current_price now last_twap last_ts period : Int) : CHResult Int := do
  let sl ← i64_sub now last_ts
  let since_last := max 1 sl
  let fs ← i128_sub period since_last
  let from_start := max 0 fs
  calculate_weighted_average current_price last_twap since_last from_start

/-- `calculate_rolling_sum` from `math/amm.rs` lines 679-700. -/
def calculate_rolling_sum (data1 data2 : Nat) (weight1_numer weight1_denom : Int) :
    CHResult Nat := do
  let w ← i128_sub weight1_denom weight1_numer
  let wc ← cast_int_to_u128 (max 0 w)
  let m ← u128_mul data1 wc
  let dd ← cast_int_to_u128 weight1_denom
  let prev ← u128_div m dd
  let prev64 ← cast_nat_to_u64 prev
  u64_add prev64 data2

/-- `update_amm_mark_std` from `math/amm.rs` lines 606-630. -/
def update_amm_mark_std (amm : AMM) (now : Int) (price ewma : Nat) : CHResult AMM := do
  let sl ← i64_sub now amm.last_mark_price_twap_ts
  let since_last := max 1 sl
  let pi ← cast_nat_to_i128 price
  let ei ← cast_nat_to_i128 ewma
  let price_change ← i128_sub pi ei
  let pc64 ← cast_nat_to_u64 price_change.natAbs
  let new_std ← calculate_rolling_sum amm.mark_std pc64 (max ONE_HOUR since_last) ONE_HOUR
  pure { amm with mark_std := new_std }

/-- Bid estimate for a long-direction trade (`math/amm.rs` lines 332-340). -/
def best_bid_estimate_calc (last_oracle_price trade_price base_spread short_spread : Nat) :
    CHResult Nat :=
  if last_oracle_price < trade_price then
    u128_sub last_oracle_price (min base_spread (short_spread / 2))
  else pure trade_price

/-- Ask estimate for a short-direction trade (`math/amm.rs` lines 342-350). -/
def best_ask_estimate_calc (last_oracle_price trade_price base_spread long_spread : Nat) :
    CHResult Nat :=
  if trade_price < last_oracle_price then
    u128_add last_oracle_price (min base_spread (long_spread / 2))
  else pure trade_price

/-- `update_mark_twap` from `math/amm.rs` lines 308-439, threading the
mutated `AMM`; returns the new mid TWAP. -/
def update_mark_twap (amm : AMM) (now : Int) (precomputed_trade_price : Option Nat)
    (direction : Option PositionDirection) : CHResult (AMM × Nat) := do
  let base_spread_u128 := amm.base_spread
  let last_oracle_price_u128 ← cast_int_to_u128 amm.historical_oracle_data.last_oracle_price
  let trade_price :=
    match precomputed_trade_price with
    | some trade_price => trade_price
    | none => last_oracle_price_u128
  if amm.historical_oracle_data.last_oracle_price ≤ 0 then .error .InvalidOracle
  else do
    let amm_reserve_price ← AMM.reserve_price amm
    let _amm_bid_ask ← AMM.bid_ask_price amm amm_reserve_price
    let best_bid_estimate ← best_bid_estimate_calc last_oracle_price_u128 trade_price
      base_spread_u128 amm.short_spread
    let best_ask_estimate ← best_ask_estimate_calc last_oracle_price_u128 trade_price
      base_spread_u128 amm.long_spread
    if ¬ (best_bid_estimate ≤ best_ask_estimate) then .error .DefaultError
    else do
      let (bid_price, ask_price) :=
        match direction with
        | some .Long => (best_bid_estimate, trade_price)
        | some .Short => (trade_price, best_ask_estimate)
        | none => (trade_price, trade_price)
      if ¬ (bid_price ≤ ask_price) then .error .DefaultError
      else do
        let bp ← cast_nat_to_i128 bid_price
        let lbt ← cast_nat_to_i128 amm.last_bid_price_twap
        let bid_price_capped_update ← sanitize_new_price bp lbt
        let ap ← cast_nat_to_i128 ask_price
        let lat ← cast_nat_to_i128 amm.last_ask_price_twap
        let ask_price_capped_update ← sanitize_new_price ap lat
        if ¬ (bid_price_capped_update ≤ ask_price_capped_update) then .error .DefaultError
        else do
          let bid_twap ← calculate_new_twap bid_price_capped_update now lbt
            amm.last_mark_price_twap_ts amm.funding_period
          let bid_twap_u ← cast_int_to_u128 bid_twap
          let amm1 := { amm with last_bid_price_twap := bid_twap_u }
          let ask_twap ← calculate_new_twap ask_price_capped_update now lat
            amm1.last_mark_price_twap_ts amm1.funding_period
          let ask_twap_u ← cast_int_to_u128 ask_twap
          let amm2 := { amm1 with last_ask_price_twap := ask_twap_u }
          let mid_sum ← i128_add bid_twap ask_twap
          let mid_twap := int_tdiv mid_sum 2
          let amm3 ← update_amm_mark_std amm2 now trade_price amm2.last_mark_price_twap
          let mid_twap_u ← cast_int_to_u128 mid_twap
          let cap_sum ← i128_add bid_price_capped_update ask_price_capped_update
          let lm5 ← cast_nat_to_i128 amm3.last_mark_price_twap_5min
          let twap5 ← calculate_new_twap (int_tdiv cap_sum 2) now lm5
            amm3.last_mark_price_twap_ts (60 * 5)
          let twap5_u ← cast_int_to_u128 twap5
          pure ({ amm3 with
              last_mark_price_twap := mid_twap_u
              last_mark_price_twap_5min := twap5_u
              last_mark_price_twap_ts := now },
            mid_twap_u)

/-! ## Funding-rate controller (`controller/funding.rs` lines 121-261) -/

/-- `PriceDivergenceGuardRails` from `state/state.rs` lines 59-62. -/
structure PriceDivergenceGuardRails where
  mark_oracle_divergence_numerator : Nat
  mark_oracle_divergence_denominator : Nat

/-- `ValidityGuardRails` from `state/state.rs` lines 65-70. -/
structure ValidityGuardRails where
  slots_before_stale_for_amm : Int
  slots_before_stale_for_margin : Int
  confidence_interval_max_size : Nat
  too_volatile_ratio : Int

/-- `OracleGuardRails` from `state/state.rs` lines 34-38. -/
structure OracleGuardRails where
  price_divergence : PriceDivergenceGuardRails
  validity : ValidityGuardRails
  use_for_liquidations : Bool

/-- `is_oracle_mark_too_divergent` from `math/amm.rs` lines 963-975. -/
def is_oracle_mark_too_divergent (price_spread_pct : Int)
    (oracle_guard_rails : PriceDivergenceGuardRails) : CHResult Bool := do
  let m ← u128_mul oracle_guard_rails.mark_oracle_divergence_numerator BID_ASK_SPREAD_PRECISION
  let max_divergence ← u128_div m oracle_guard_rails.mark_oracle_divergence_denominator
  pure (decide (max_divergence < price_spread_pct.natAbs))

/-- Modelled from the spec: the oracle validity predicate (`math/oracle.rs`
is not under `src/`): a positive price with sufficient data points, within
the staleness and confidence guard rails (spec 6, 4.4). -/
def oracle_is_valid (oracle_price_data : OraclePriceData) (validity : ValidityGuardRails) :
    Bool :=
  decide (0 < oracle_price_data.price) &&
    oracle_price_data.has_sufficient_number_of_data_points &&
    decide (oracle_price_data.delay ≤ validity.slots_before_stale_for_amm) &&
    decide (oracle_price_data.confidence ≤ validity.confidence_interval_max_size)

/-- Modelled from the spec: `oracle::block_operation` (`math/oracle.rs` is
not under `src/`): funding is blocked when the oracle is invalid or the
mark/oracle spread exceeds the divergence guard rails (spec 4.4). -/
def block_operation (market : PerpMarket) (oracle_price_data : OraclePriceData)
    (guard_rails : OracleGuardRails) (precomputed_reserve_price : Option Nat) :
    CHResult Bool := do
  let pct ← calculate_oracle_reserve_price_spread_pct market.amm oracle_price_data
    precomputed_reserve_price
  let mark_too_divergent ← is_oracle_mark_too_divergent pct guard_rails.price_divergence
  pure (!(oracle_is_valid oracle_price_data guard_rails.validity) || mark_too_divergent)

/-- Modelled from the spec: `on_the_hour_update` (`math/helpers.rs` is not
under `src/`): the time remaining until the next on-the-hour boundary of the
funding period after the last update (spec 4.4: \"elapsed time since
last_funding_rate_ts has crossed the on-the-hour boundary\"). -/
def on_the_hour_update (now last_update_ts update_period : Int) : CHResult Int :=
  if update_period ≤ 0 then .error .MathError
  else
    .ok (max 0 ((Int.ediv last_update_ts update_period + 1) * update_period - now))

/-- Modelled from the spec: `calculate_funding_rate_long_short`
(`math/funding.rs` is not under `src/`).  Spec 9 leaves the exact split an
open question with conservation as the binding contract; modelled as the
symmetric split with zero imbalance cost. -/
def calculate_funding_rate_long_short (_market : PerpMarket) (funding_rate : Int) :
    CHResult (Int × Int × Int) :=
  .ok (funding_rate, funding_rate, 0)

/-- Modelled from the spec: `formulaic_update_k` (`controller/amm.rs` is not
under `src/`): the budgeted K-rebalance collaborator.  With the zero
imbalance-cost budget produced by the modelled split, the bounded K-scale is
the identity, so the market is returned unchanged. -/
def formulaic_update_k (market : PerpMarket) (_oracle_price_data : OraclePriceData)
    (_funding_imbalance_cost _now : Int) : CHResult PerpMarket :=
  .ok market

/-- Execution-premium price and direction (`controller/funding.rs` lines
161-175): quote the side whose spread is currently larger. -/
def execution_premium_calc (amm : AMM) (reserve_price : Nat) :
    CHResult (Nat × Option PositionDirection) :=
  if amm.short_spread < amm.long_spread then do
    let p ← AMM.ask_price amm reserve_price
    pure (p, some .Long)
  else
    if amm.long_spread < amm.short_spread then do
      let p ← AMM.bid_price amm reserve_price
      pure (p, some .Short)
    else pure (reserve_price, none)

/-- Period adjustment (`controller/funding.rs` lines 184-188):
`24 * ONE_HOUR / max(ONE_HOUR, funding_period)`. -/
def period_adjustment_calc (funding_period : Int) : CHResult Int := do
  let m ← i128_mul 24 ONE_HOUR
  i128_div m (max ONE_HOUR funding_period)

/-- The funding price-spread clamp (`controller/funding.rs` lines 191-199):
`price_spread = mid_twap - oracle_twap`, clamped to
`± oracle_price_twap / 33` (the code's \"3%\"). -/
def clamped_price_spread_calc (mid_price_twap : Nat) (oracle_price_twap : Int) :
    CHResult Int := do
  let mid ← cast_nat_to_i128 mid_price_twap
  let price_spread ← i128_sub mid oracle_price_twap
  let max_price_spread ← i128_div oracle_price_twap 33
  pure (max (-max_price_spread) (min price_spread max_price_spread))

/-- The clamp as the specification words it: the bound `m` is exactly 3% of
the oracle price TWAP (`oracle_price_twap * 3 / 100`, truncated).  Kept for
comparison with `clamped_price_spread_calc`, which embeds the source. -/
def clamped_price_spread_spec (mid_price_twap : Nat) (oracle_price_twap : Int) :
    CHResult Int := do
  let mid ← cast_nat_to_i128 mid_price_twap
  let price_spread ← i128_sub mid oracle_price_twap
  let max_price_spread := int_tdiv (oracle_price_twap * 3) 100
  pure (max (-max_price_spread) (min price_spread max_price_spread))

/-- `update_funding_rate` from `controller/funding.rs` lines 121-261.  The
oracle map access is replaced by passing the `OraclePriceData` directly; the
`emit!` is a no-op except for the `get_then_update_id!` increment of
`next_funding_rate_record_id`. -/
def update_funding_rate (market : PerpMarket) (oracle_price_data : OraclePriceData)
    (now : Int) (guard_rails : OracleGuardRails) (funding_paused : Bool)
    (precomputed_reserve_price : Option Nat) : CHResult (PerpMarket × Bool) := do
  let reserve_price ← resolve_reserve_price market.amm precomputed_reserve_price
  let block_funding_rate_update ← block_operation market oracle_price_data guard_rails
    (some reserve_price)
  let time_until_next_update ← on_the_hour_update now market.amm.last_funding_rate_ts
    market.amm.funding_period
  let valid_funding_update :=
    !funding_paused && !block_funding_rate_update && decide (time_until_next_update = 0)
  if valid_funding_update then do
    let (amm1, oracle_price_twap) ← update_oracle_price_twap market.amm now oracle_price_data
      (some reserve_price)
    let market1 := { market with amm := amm1 }
    let (execution_premium_price, execution_premium_direction) ←
      execution_premium_calc market1.amm reserve_price
    let (amm2, mid_price_twap) ← update_mark_twap market1.amm now
      (some execution_premium_price) execution_premium_direction
    let market2 := { market1 with amm := amm2 }
    let period_adjustment ← period_adjustment_calc market2.amm.funding_period
    let clamped_price_spread ← clamped_price_spread_calc mid_price_twap oracle_price_twap
    let f0 ← i128_mul clamped_price_spread FUNDING_RATE_BUFFER
    let funding_rate ← i128_div f0 period_adjustment
    let frs ← calculate_funding_rate_long_short market2 funding_rate
    let market3 ←
      if 0 < market2.amm.curve_update_intensity then
        formulaic_update_k market2 oracle_price_data frs.2.2 now
      else pure market2
    let cfl ← i128_add market3.amm.cumulative_funding_rate_long frs.1
    let cfs ← i128_add market3.amm.cumulative_funding_rate_short frs.2.1
    let l24 ← calculate_new_twap funding_rate now market3.amm.last_24h_avg_funding_rate
      market3.amm.last_funding_rate_ts TWENTY_FOUR_HOUR
    pure ({ market3 with
        amm := { market3.amm with
          cumulative_funding_rate_long := cfl
          cumulative_funding_rate_short := cfs
          last_funding_rate := funding_rate
          last_funding_rate_long := frs.1
          last_funding_rate_short := frs.2.1
          last_24h_avg_funding_rate := l24
          last_funding_rate_ts := now
          net_revenue_since_last_funding := 0 }
        next_funding_rate_record_id := (market3.next_funding_rate_record_id + 1) % U64_MOD },
      true)
  else pure (market, false)

/-! ## Inversion lemmas for the insurance helpers -/

theorem get_proportion_u128_ok {v n d q : Nat} (h : get_proportion_u128 v n d = .ok q) :
    d ≠ 0 ∧ q = v * n / d ∧ v * n < U192_MOD ∧ q < U128_MOD := by
  unfold get_proportion_u128 at h
  rcases (chbind_ok_iff _ _ _).1 h with ⟨p, hp, h2⟩
  rcases (chbind_ok_iff _ _ _).1 h2 with ⟨q', hq, h3⟩
  unfold u192_mul at hp
  split at hp
  · cases hp
    unfold u192_div at hq
    split at hq
    · cases hq
    · cases hq
      unfold u192_try_to_u128 at h3
      split at h3
      · cases h3
        refine ⟨by assumption, rfl, by assumption, by assumption⟩
      · cases h3
  · cases hp

theorem vault_amount_to_if_shares_ok {x T B s : Nat}
    (h : vault_amount_to_if_shares x T B = .ok s) :
    (0 < B ∧ s = x * T / B) ∨ (B = 0 ∧ T = 0 ∧ s = x) := by
  unfold vault_amount_to_if_shares at h
  split at h
  · rcases get_proportion_u128_ok h with ⟨_, hs, _, _⟩
    exact Or.inl ⟨by assumption, hs⟩
  · split at h
    · cases h
      right
      refine ⟨by omega, by assumption, rfl⟩
    · cases h

theorem if_shares_to_vault_amount_ok {s T B r : Nat}
    (h : if_shares_to_vault_amount s T B = .ok r) :
    s ≤ T ∧ ((0 < T ∧ r = B * s / T) ∨ (T = 0 ∧ r = 0)) := by
  unfold if_shares_to_vault_amount at h
  split at h
  · refine ⟨by assumption, ?_⟩
    split at h
    · rcases (chbind_ok_iff _ _ _).1 h with ⟨a, ha, hc⟩
      rcases get_proportion_u128_ok ha with ⟨_, hval, _, _⟩
      unfold cast_nat_to_u64 at hc
      split at hc
      · cases hc
        exact Or.inl ⟨by assumption, hval⟩
      · cases hc
    · cases h
      exact Or.inr ⟨by omega, rfl⟩
  · cases h

/-! ## Claim C8: share-conversion round trip -/

/-- C8: for every `x ≤ insurance_fund_vault_balance`, composing
`vault_amount_to_if_shares` with `if_shares_to_vault_amount` returns a value
within integer-rounding tolerance of `x`: the result never exceeds `x`, and
the shortfall is at most one share's worth of tokens plus one
(`total * (x - result) ≤ balance + total`, i.e. `x - result ≤ balance/total + 1`
whenever `total > 0`). -/
theorem C8_if_shares_round_trip (x T B r : Nat) (hx : x ≤ B)
    (h : (vault_amount_to_if_shares x T B >>= fun s => if_shares_to_vault_amount s T B) = .ok r) :
    r ≤ x ∧ T * (x - r) ≤ B + T := by
  rcases (chbind_ok_iff _ _ _).1 h with ⟨s, hs, hr⟩
  rcases vault_amount_to_if_shares_ok hs with ⟨hB, hsv⟩ | ⟨hB0, hT0, hsx⟩
  · -- balance > 0, shares = x*T/B
    rcases if_shares_to_vault_amount_ok hr with ⟨hsT, ⟨hT, hrv⟩ | ⟨hT0, hr0⟩⟩
    · -- total > 0, r = B*s/T
      have hBs_le : B * s ≤ x * T := by
        rw [hsv]
        calc B * (x * T / B) = x * T / B * B := Nat.mul_comm _ _
        _ ≤ x * T := Nat.div_mul_le_self _ _
      have hrx : r ≤ x := by
        rw [hrv]
        calc B * s / T ≤ x * T / T := Nat.div_le_div_right hBs_le
        _ = x := Nat.mul_div_cancel x hT
      refine ⟨hrx, ?_⟩
      have e1 : B * s + x * T % B = x * T := by
        rw [hsv]
        exact Nat.div_add_mod (x * T) B
      have e2 : T * r + B * s % T = B * s := by
        rw [hrv]
        exact Nat.div_add_mod (B * s) T
      have m1 : x * T % B < B := Nat.mod_lt _ hB
      have m2 : B * s % T < T := Nat.mod_lt _ hT
      have key : T * (x - r) + T * r = T * x := by
        rw [← Nat.mul_add, Nat.sub_add_cancel hrx]
      have hcomm : T * x = x * T := Nat.mul_comm T x
      generalize hM1 : x * T % B = M1 at e1 m1
      generalize hM2 : B * s % T = M2 at e2 m2
      generalize hP : B * s = P at e1 e2
      generalize hQ : T * r = Q at e2 key
      generalize hD : T * (x - r) = D at key ⊢
      generalize hX : T * x = X at key hcomm
      generalize hR : x * T = R at e1 hcomm
      omega
    · -- total = 0: the round trip returns 0
      have hr0' : r = 0 := hr0
      refine ⟨by omega, ?_⟩
      rw [hT0]
      simp
  · -- balance = 0 forces x = 0
    have hx0 : x = 0 := by omega
    rcases if_shares_to_vault_amount_ok hr with ⟨hsT, ⟨hT, _⟩ | ⟨_, hr0⟩⟩
    · omega
    · refine ⟨by omega, ?_⟩
      rw [hT0]
      simp

/-- Witness for C8 at `x = 7`, `total = 3`, `balance = 10`: the round trip
yields `6`, with `6 ≤ 7` and `3 * (7 - 6) ≤ 13`. -/
theorem C8_if_shares_round_trip_witness :
    7 ≤ 10 ∧ 6 ≤ 7 ∧ 3 * (7 - 6) ≤ 10 + 3 :=
  ⟨by decide,
    (C8_if_shares_round_trip 7 3 10 6 (by decide) rfl).1,
    (C8_if_shares_round_trip 7 3 10 6 (by decide) rfl).2⟩

/-! ## Claim C9: bootstrap share conversion -/

/-- C9 counterexample: with `total_if_shares = 0` but a positive vault balance
(`amount = 50`, `balance = 100`), `vault_amount_to_if_shares` returns `0`
shares, not `amount = 50` as the claim states. -/
theorem C9_counterexample :
    vault_amount_to_if_shares 50 0 100 = .ok 0 ∧
      (Except.ok 0 : CHResult Nat) ≠ .ok 50 := by
  constructor
  · rfl
  · intro h
    cases h

/-- C9 (amended): the `1 token = 1 share` bootstrap applies only when the
vault balance is zero (which the code validates to imply
`total_if_shares = 0`): `vault_amount_to_if_shares amount 0 0 = amount`.
When `total_if_shares = 0` but the balance is positive, the proportional
branch runs instead and returns `0` shares. -/
theorem C9_bootstrap_share_conversion (amount B : Nat) :
    vault_amount_to_if_shares amount 0 0 = .ok amount ∧
      (0 < B → vault_amount_to_if_shares amount 0 B = .ok 0) := by
  constructor
  · rfl
  · intro hB
    unfold vault_amount_to_if_shares
    rw [if_pos hB]
    unfold get_proportion_u128 u192_mul u192_div u192_try_to_u128
    rw [Nat.mul_zero]
    rw [if_pos (by norm_num [U192_MOD])]
    rw [chbind_ok]
    rw [if_neg (by omega)]
    rw [chbind_ok, Nat.zero_div]
    rw [if_pos (by norm_num [U128_MOD])]

/-- Witness for C9's amended statement at `amount = 7`, `B = 100`. -/
theorem C9_bootstrap_share_conversion_witness :
    vault_amount_to_if_shares 7 0 0 = .ok 7 ∧ vault_amount_to_if_shares 7 0 100 = .ok 0 :=
  ⟨(C9_bootstrap_share_conversion 7 100).1, (C9_bootstrap_share_conversion 7 100).2 (by decide)⟩

/-! ## Claim C4: swap-output domain limits -/

/-- C4 (amended): provided the invariant `sqrt_k^2` fits in the 192-bit wide
integer (`sqrt_k < 2^96`), `calculate_swap_output` with direction `Remove`
returns `TradeSizeTooLarge` whenever `swap_amount > input_asset_reserve`, and
at the exact boundary `swap_amount = input_asset_reserve` it fails cleanly
with an arithmetic error (division by the zero new input reserve) — it never
returns a zero or negative reserve. -/
theorem C4_swap_output_remove_bounds (swap_amount input_asset_reserve sqrt_k : Nat)
    (hk : sqrt_k * sqrt_k < U192_MOD) :
    (input_asset_reserve < swap_amount →
      calculate_swap_output swap_amount input_asset_reserve .Remove sqrt_k =
        .error .TradeSizeTooLarge) ∧
    (swap_amount = input_asset_reserve →
      calculate_swap_output swap_amount input_asset_reserve .Remove sqrt_k =
        .error .MathError) := by
  constructor
  · intro hgt
    unfold calculate_swap_output u192_mul
    rw [if_pos hk]
    rw [chbind_ok]
    rw [if_pos ⟨rfl, hgt⟩]
  · intro heq
    subst heq
    unfold calculate_swap_output u192_mul
    rw [if_pos hk]
    rw [chbind_ok]
    rw [if_neg (by simp)]
    show (u128_sub swap_amount swap_amount >>= _) = _
    unfold u128_sub
    rw [if_pos (Nat.le_refl _)]
    rw [chbind_ok]
    show (u192_div _ (swap_amount - swap_amount) >>= _) = _
    unfold u192_div
    rw [Nat.sub_self]
    rw [if_pos rfl]
    rfl

/-- C4 counterexample: the claim quantifies over every `sqrt_k`, but for
`sqrt_k = 2^100` the 192-bit invariant multiplication overflows first, so an
oversized `Remove` swap (`amount = 2 > input = 1`) returns `MathError`, not
`TradeSizeTooLarge`. -/
theorem C4_counterexample :
    calculate_swap_output 2 1 .Remove (2 ^ 100) = .error .MathError ∧
      (Except.error .MathError : CHResult (Nat × Nat)) ≠ .error .TradeSizeTooLarge := by
  constructor
  · show (if 2 ^ 100 * 2 ^ 100 < U192_MOD then _ else _ : CHResult Nat) >>= _ = _
    rw [if_neg (by norm_num [U192_MOD])]
    rfl
  · intro h
    cases h

/-- Witness for C4's amended statement: `sqrt_k = 10`, oversized swap `5 > 3`
gives `TradeSizeTooLarge`; boundary swap `3 = 3` gives `MathError`. -/
theorem C4_swap_output_remove_bounds_witness :
    calculate_swap_output 5 3 .Remove 10 = .error .TradeSizeTooLarge ∧
      calculate_swap_output 3 3 .Remove 10 = .error .MathError :=
  ⟨(C4_swap_output_remove_bounds 5 3 10 (by norm_num [U192_MOD])).1 (by decide),
    (C4_swap_output_remove_bounds 3 3 10 (by norm_num [U192_MOD])).2 rfl⟩

/-! ## Inversion lemmas for checked arithmetic -/

theorem i64_add_ok {a b v : Int} (h : i64_add a b = .ok v) : v = a + b := by
  unfold i64_add i64_checked at h
  split at h
  · cases h; rfl
  · cases h

theorem i64_sub_ok {a b v : Int} (h : i64_sub a b = .ok v) : v = a - b := by
  unfold i64_sub i64_checked at h
  split at h
  · cases h; rfl
  · cases h

theorem i128_mul_ok {a b v : Int} (h : i128_mul a b = .ok v) : v = a * b := by
  unfold i128_mul i128_checked at h
  split at h
  · cases h; rfl
  · cases h

theorem i128_div_ok {a b v : Int} (h : i128_div a b = .ok v) : v = int_tdiv a b := by
  unfold i128_div i128_checked at h
  split at h
  · cases h
  · split at h
    · cases h; rfl
    · cases h

theorem cast_int_to_i64_ok {x v : Int} (h : cast_int_to_i64 x = .ok v) : v = x := by
  unfold cast_int_to_i64 at h
  split at h
  · cases h; rfl
  · cases h

/-! ## Position update-type classification under Reduce/Close conditions -/

theorem update_type_reduce_or_close (position : PerpPosition) (delta : PositionDelta)
    (hba : position.base_asset_amount ≠ 0)
    (hsign : 0 < position.base_asset_amount ∧ delta.base_asset_amount < 0 ∨
      position.base_asset_amount < 0 ∧ 0 < delta.base_asset_amount)
    (hmag : delta.base_asset_amount.natAbs ≤ position.base_asset_amount.natAbs) :
    get_position_update_type position delta = .Reduce ∨
      get_position_update_type position delta = .Close := by
  unfold get_position_update_type
  rw [if_neg hba]
  rw [if_neg (by omega)]
  rcases Nat.lt_or_ge delta.base_asset_amount.natAbs position.base_asset_amount.natAbs with
    hlt | hge
  · rw [if_pos hlt]
    exact Or.inl rfl
  · have heq : delta.base_asset_amount.natAbs = position.base_asset_amount.natAbs :=
      Nat.le_antisymm hmag hge
    rw [if_neg (by omega), if_pos heq]
    exact Or.inr rfl

theorem position_entry_calc_reduce_close_ok {position : PerpPosition} {delta : PositionDelta}
    {ut : PositionUpdateType} {nqe nqb pnl : Int} (hut : ut = .Reduce ∨ ut = .Close)
    (h : position_entry_calc position delta ut = .ok (nqe, nqb, pnl)) :
    nqe = position.quote_entry_amount -
        int_tdiv (position.quote_entry_amount * (delta.base_asset_amount.natAbs : Int))
          (position.base_asset_amount.natAbs : Int) ∧
    nqb = position.quote_break_even_amount -
        int_tdiv (position.quote_break_even_amount * (delta.base_asset_amount.natAbs : Int))
          (position.base_asset_amount.natAbs : Int) ∧
    pnl = (position.quote_entry_amount - nqe) + delta.quote_asset_amount := by
  have hbody : position_entry_calc position delta ut =
      position_entry_calc position delta .Reduce := by
    rcases hut with h' | h'
    · rw [h']
    · rw [h']; rfl
  rw [hbody] at h
  unfold position_entry_calc at h
  rcases (chbind_ok_iff _ _ _).1 h with ⟨num1, h1, h⟩
  rcases (chbind_ok_iff _ _ _).1 h with ⟨q1, h2, h⟩
  rcases (chbind_ok_iff _ _ _).1 h with ⟨q1c, h3, h⟩
  rcases (chbind_ok_iff _ _ _).1 h with ⟨nqe', h4, h⟩
  rcases (chbind_ok_iff _ _ _).1 h with ⟨num2, h5, h⟩
  rcases (chbind_ok_iff _ _ _).1 h with ⟨q2, h6, h⟩
  rcases (chbind_ok_iff _ _ _).1 h with ⟨q2c, h7, h⟩
  rcases (chbind_ok_iff _ _ _).1 h with ⟨nqb', h8, h⟩
  rcases (chbind_ok_iff _ _ _).1 h with ⟨d1, h9, h⟩
  rcases (chbind_ok_iff _ _ _).1 h with ⟨pnl', h10, h⟩
  cases h
  have e1 := i128_mul_ok h1
  have e2 := i128_div_ok h2
  have e3 := cast_int_to_i64_ok h3
  have e4 := i64_sub_ok h4
  have e5 := i128_mul_ok h5
  have e6 := i128_div_ok h6
  have e7 := cast_int_to_i64_ok h7
  have e8 := i64_sub_ok h8
  have e9 := i64_sub_ok h9
  have e10 := i64_add_ok h10
  subst e1 e2 e3 e4 e5 e6 e7 e8 e9 e10
  exact ⟨rfl, rfl, rfl⟩

/-! ## Claim C1: proportional cost-basis reduction on Reduce/Close -/

/-- C1: for every fill delta classified as Reduce or Close (opposite sign of
the position, magnitude at most the position's and the position nonzero),
a successful `update_position_and_market` sets
`quote_entry_amount := entry_before - entry_before * |delta_base| / |base_before|`
(the `i128` multiply-then-truncated-divide order of the source), likewise for
`quote_break_even_amount`, and returns
`pnl = (entry_before - entry_after) + delta.quote_asset_amount`. -/
theorem C1_reduce_close_cost_basis
    (position : PerpPosition) (market : PerpMarket) (delta : PositionDelta)
    (pos' : PerpPosition) (mkt' : PerpMarket) (pnl : Int)
    (hba : position.base_asset_amount ≠ 0)
    (hsign : 0 < position.base_asset_amount ∧ delta.base_asset_amount < 0 ∨
      position.base_asset_amount < 0 ∧ 0 < delta.base_asset_amount)
    (hmag : delta.base_asset_amount.natAbs ≤ position.base_asset_amount.natAbs)
    (h : update_position_and_market position market delta = (pos', mkt', .ok pnl)) :
    pos'.quote_entry_amount =
      position.quote_entry_amount -
        int_tdiv (position.quote_entry_amount * (delta.base_asset_amount.natAbs : Int))
          (position.base_asset_amount.natAbs : Int) ∧
    pos'.quote_break_even_amount =
      position.quote_break_even_amount -
        int_tdiv (position.quote_break_even_amount * (delta.base_asset_amount.natAbs : Int))
          (position.base_asset_amount.natAbs : Int) ∧
    pnl = (position.quote_entry_amount - pos'.quote_entry_amount) + delta.quote_asset_amount := by
  have hd0 : delta.base_asset_amount ≠ 0 := by
    rcases hsign with ⟨_, h2⟩ | ⟨_, h2⟩ <;> omega
  have hclass := update_type_reduce_or_close position delta hba hsign hmag
  unfold update_position_and_market at h
  rw [if_neg hd0] at h
  generalize hut : get_position_update_type position delta = ut at h hclass
  dsimp only at h
  cases hq : i64_add position.quote_asset_amount delta.quote_asset_amount with
  | error e => rw [hq] at h; simp at h
  | ok nqa =>
  rw [hq] at h
  dsimp only at h
  cases hb : i64_add position.base_asset_amount delta.base_asset_amount with
  | error e => rw [hb] at h; simp at h
  | ok nba =>
  rw [hb] at h
  dsimp only at h
  cases hec : position_entry_calc position delta ut with
  | error e => rw [hec] at h; simp at h
  | ok trip =>
  obtain ⟨nqe, nqb, pnl0⟩ := trip
  rw [hec] at h
  dsimp only at h
  have hvals := position_entry_calc_reduce_close_ok hclass hec
  rcases hoi : position_oi_counters market position ut nqa nba with ⟨m1, res1⟩
  rw [hoi] at h
  cases res1 with
  | error e => dsimp only at h; simp at h
  | ok u1 =>
  dsimp only at h
  cases hqa : i128_add m1.amm.quote_asset_amount delta.quote_asset_amount with
  | error e => rw [hqa] at h; simp at h
  | ok amm_qa =>
  rw [hqa] at h
  dsimp only at h
  split at h
  · simp at h
  · split at h
    · simp at h
    · rcases hclass with hcl | hcl <;> subst hcl <;> dsimp only at h <;>
        (split at h
         · simp at h
         · split at h
           · simp only [Prod.mk.injEq] at h
             obtain ⟨hp, hm, hr⟩ := h
             injection hr with hpnl
             obtain ⟨hv1, hv2, hv3⟩ := hvals
             subst hp
             rw [hpnl] at hv3
             exact ⟨hv1, hv2, hv3⟩
           · simp at h)

/-- Witness for C1: the concrete Reduce fill (`base 10 -> 5` long,
`delta = (quote 60, base -5)`) produces entry `-50`, break-even `-48` and
realized pnl `10`, matching the proportional-reduction formulas. -/
theorem C1_reduce_close_cost_basis_witness :
    position_c1_after.quote_entry_amount =
      position_c1.quote_entry_amount -
        int_tdiv (position_c1.quote_entry_amount * (delta_c1.base_asset_amount.natAbs : Int))
          (position_c1.base_asset_amount.natAbs : Int) ∧
    position_c1_after.quote_break_even_amount =
      position_c1.quote_break_even_amount -
        int_tdiv
          (position_c1.quote_break_even_amount * (delta_c1.base_asset_amount.natAbs : Int))
          (position_c1.base_asset_amount.natAbs : Int) ∧
    (10 : Int) =
      (position_c1.quote_entry_amount - position_c1_after.quote_entry_amount) +
        delta_c1.quote_asset_amount :=
  C1_reduce_close_cost_basis position_c1 market_c1 delta_c1 position_c1_after market_c1_after 10
    (by decide) (Or.inl (by decide)) (by decide) rfl

theorem update_quote_asset_amount_core_fields
    (position : PerpPosition) (market : PerpMarket) (delta : Int)
    (p : PerpPosition) (m : PerpMarket) (r : CHResult Unit)
    (h : update_quote_asset_amount position market delta = (p, m, r)) :
    p.base_asset_amount = position.base_asset_amount ∧
    p.quote_entry_amount = position.quote_entry_amount ∧
    p.quote_break_even_amount = position.quote_break_even_amount := by
  unfold update_quote_asset_amount at h
  repeat' ((try dsimp only at h); split at h)
  all_goals
    first
    | (exfalso; simp_all; done)
    | (simp only [Prod.mk.injEq] at h
       obtain ⟨h1, h2, h3⟩ := h
       subst h1
       exact ⟨rfl, rfl, rfl⟩)

/-- C3 (amended): whenever `update_position_and_market` returns an error, the
position's `base_asset_amount`, `quote_entry_amount` and
`quote_break_even_amount` are unchanged — those fields are committed only
after every validation has passed.  (The market record, and the position's
`quote_asset_amount` / `last_cumulative_funding_rate`, may already have been
mutated in memory before the error; atomicity for those comes from the host
transaction's rollback, not from the function.) -/
theorem C3_error_preserves_core_position_fields
    (position : PerpPosition) (market : PerpMarket) (delta : PositionDelta)
    (pos' : PerpPosition) (mkt' : PerpMarket) (e : ErrorCode)
    (h : update_position_and_market position market delta = (pos', mkt', .error e)) :
    pos'.base_asset_amount = position.base_asset_amount ∧
    pos'.quote_entry_amount = position.quote_entry_amount ∧
    pos'.quote_break_even_amount = position.quote_break_even_amount := by
  unfold update_position_and_market at h
  dsimp only at h
  split at h
  · -- delta.base_asset_amount = 0: the quote-only path
    rcases hq : update_quote_asset_amount position market delta.quote_asset_amount with ⟨p, m, r⟩
    rw [hq] at h
    have hc := update_quote_asset_amount_core_fields position market
      delta.quote_asset_amount p m r hq
    cases r with
    | ok u =>
      dsimp only at h
      simp only [Prod.mk.injEq] at h
      exact absurd h.2.2 (by simp)
    | error e' =>
      dsimp only at h
      simp only [Prod.mk.injEq] at h
      obtain ⟨h1, _, _⟩ := h
      subst h1
      exact hc
  · repeat' split at h
    all_goals
      first
      | (exfalso; simp_all; done)
      | (simp only [Prod.mk.injEq] at h
         obtain ⟨h1, h2, h3⟩ := h
         subst h1
         exact ⟨rfl, rfl, rfl⟩)

/-- C3 counterexample: `update_position_and_market` is not
\"no partial state mutation on error\".  (a) A fill that fails the
stale-funding check aborts with `InvalidPositionLastFundingRate`, but the
market's `amm.quote_asset_amount` (and entry aggregates) have already been
updated in memory.  (b) On the quote-only path, an `i128` overflow in the
market aggregate aborts after the position's `quote_asset_amount` was written.
(c) A Close that fails the step-size check aborts after the position's
`last_cumulative_funding_rate` was reset. -/
theorem C3_counterexample :
    ((update_position_and_market position_c3a market_c3a delta_c3a).2.2 =
        .error .InvalidPositionLastFundingRate ∧
      (update_position_and_market position_c3a market_c3a delta_c3a).2.1.amm.quote_asset_amount
          = 7 ∧
      market_c3a.amm.quote_asset_amount = 0) ∧
    ((update_position_and_market position_c3b market_c3b delta_c3b).2.2 = .error .MathError ∧
      (update_position_and_market position_c3b market_c3b delta_c3b).1.quote_asset_amount = 1 ∧
      position_c3b.quote_asset_amount = 0) ∧
    ((update_position_and_market position_c3c market_c3c delta_c3c).2.2 = .error .MathError ∧
      (update_position_and_market
          position_c3c market_c3c delta_c3c).1.last_cumulative_funding_rate = 0 ∧
      position_c3c.last_cumulative_funding_rate = 5) :=
  ⟨⟨rfl, rfl, rfl⟩, ⟨rfl, rfl, rfl⟩, ⟨rfl, rfl, rfl⟩⟩

/-- Witness for C3's amended statement at the concrete failing fill (a):
the error leaves `base/entry/break-even` of the position untouched. -/
theorem C3_error_preserves_core_position_fields_witness :
    position_c3a.base_asset_amount = position_c3a.base_asset_amount ∧
    position_c3a.quote_entry_amount = position_c3a.quote_entry_amount ∧
    position_c3a.quote_break_even_amount = position_c3a.quote_break_even_amount :=
  C3_error_preserves_core_position_fields position_c3a market_c3a delta_c3a
    position_c3a market_c3a_after .InvalidPositionLastFundingRate rfl

theorem u128_add_ok {a b v : Nat} (h : u128_add a b = .ok v) : v = a + b := by
  unfold u128_add u128_checked at h
  split at h
  · cases h; rfl
  · cases h

/-- Whenever `cap_to_max_spread` succeeds, the returned pair sums to at most
its `max_spread` argument (the final validation guarantees it). -/
theorem cap_to_max_spread_ok {l s m l' s' : Nat}
    (h : cap_to_max_spread l s m = .ok (l', s')) : l' + s' ≤ m := by
  unfold cap_to_max_spread at h
  rcases (chbind_ok_iff _ _ _).1 h with ⟨total, h1, h⟩
  rcases (chbind_ok_iff _ _ _).1 h with ⟨⟨l1, s1⟩, h2, h⟩
  dsimp only at h
  rcases (chbind_ok_iff _ _ _).1 h with ⟨nt, h3, h⟩
  have hnt := u128_add_ok h3
  split at h
  · cases h
    omega
  · cases h

/-- C2: every `(long_spread, short_spread)` pair that `calculate_spread`
returns satisfies
`long + short <= max(max_spread, |last_oracle_reserve_price_spread_pct|)`,
because the final `cap_to_max_spread` step enforces exactly this bound. -/
theorem C2_calculate_spread_sum_bounded
    (base_spread : Nat) (last_oracle_reserve_price_spread_pct : Int)
    (last_oracle_conf_pct max_spread : Nat)
    (quote_asset_reserve terminal_quote_asset_reserve peg_multiplier : Nat)
    (net_base_asset_amount : Int) (reserve_price : Nat)
    (total_fee_minus_distributions : Int)
    (base_asset_reserve min_base_asset_reserve max_base_asset_reserve : Nat)
    (l s : Nat)
    (h : calculate_spread base_spread last_oracle_reserve_price_spread_pct
        last_oracle_conf_pct max_spread quote_asset_reserve terminal_quote_asset_reserve
        peg_multiplier net_base_asset_amount reserve_price total_fee_minus_distributions
        base_asset_reserve min_base_asset_reserve max_base_asset_reserve = .ok (l, s)) :
    l + s ≤ max max_spread last_oracle_reserve_price_spread_pct.natAbs := by
  unfold calculate_spread at h
  rcases (chbind_ok_iff _ _ _).1 h with ⟨⟨l1, s1⟩, _, h⟩
  dsimp only at h
  rcases (chbind_ok_iff _ _ _).1 h with ⟨⟨mb, ma⟩, _, h⟩
  dsimp only at h
  rcases (chbind_ok_iff _ _ _).1 h with ⟨_, _, h⟩
  rcases (chbind_ok_iff _ _ _).1 h with ⟨_, _, h⟩
  rcases (chbind_ok_iff _ _ _).1 h with ⟨_, _, h⟩
  rcases (chbind_ok_iff _ _ _).1 h with ⟨_, _, h⟩
  rcases (chbind_ok_iff _ _ _).1 h with ⟨⟨l2, s2⟩, _, h⟩
  dsimp only at h
  rcases (chbind_ok_iff _ _ _).1 h with ⟨_, _, h⟩
  rcases (chbind_ok_iff _ _ _).1 h with ⟨_, _, h⟩
  rcases (chbind_ok_iff _ _ _).1 h with ⟨_, _, h⟩
  rcases (chbind_ok_iff _ _ _).1 h with ⟨_, _, h⟩
  rcases (chbind_ok_iff _ _ _).1 h with ⟨_, _, h⟩
  rcases (chbind_ok_iff _ _ _).1 h with ⟨_, _, h⟩
  rcases (chbind_ok_iff _ _ _).1 h with ⟨_, _, h⟩
  rcases (chbind_ok_iff _ _ _).1 h with ⟨_, _, h⟩
  rcases (chbind_ok_iff _ _ _).1 h with ⟨_, _, h⟩
  rcases (chbind_ok_iff _ _ _).1 h with ⟨_, _, h⟩
  rcases (chbind_ok_iff _ _ _).1 h with ⟨_, _, h⟩
  rcases (chbind_ok_iff _ _ _).1 h with ⟨_, _, h⟩
  rcases (chbind_ok_iff _ _ _).1 h with ⟨_, _, h⟩
  rcases (chbind_ok_iff _ _ _).1 h with ⟨_, _, h⟩
  rcases (chbind_ok_iff _ _ _).1 h with ⟨⟨l3, s3⟩, _, h⟩
  dsimp only at h
  exact cap_to_max_spread_ok h

/-- Witness for C2 at the repository's own golden test input
(`calculate_spread_tests` case 1): the result `(5000, 5000)` sums within
`max(200000, 0)`. -/
theorem C2_calculate_spread_sum_bounded_witness :
    5000 + 5000 ≤ max 200000 (Int.natAbs 0) :=
  C2_calculate_spread_sum_bounded 1000 0 0 200000 (10 * AMM_RESERVE_PRECISION)
    (10 * AMM_RESERVE_PRECISION) 34000000 0 34562304 0 (10 * AMM_RESERVE_PRECISION) 0
    (100000 * AMM_RESERVE_PRECISION) 5000 5000 rfl

theorem u64_div_ok {a b v : Nat} (h : u64_div a b = .ok v) : v = a / b := by
  unfold u64_div at h
  split at h
  · cases h
  · cases h; rfl

theorem cast_nat_to_u64_ok {x v : Nat} (h : cast_nat_to_u64 x = .ok v) : v = x := by
  unfold cast_nat_to_u64 at h
  split at h
  · cases h; rfl
  · cases h

theorem standardize_base_asset_amount_ok {a step r : Nat}
    (h : standardize_base_asset_amount a step = .ok r) : r = a - a % step ∧ step ≠ 0 := by
  unfold standardize_base_asset_amount at h
  split at h
  · cases h
  · cases h
    exact ⟨rfl, by assumption⟩

theorem jit_max_amount_le {half_maker : Nat} {v : Option Int} {a : Nat}
    {d : PositionDirection} {mj : Nat} (h : jit_max_amount half_maker v a d = .ok mj) :
    mj ≤ half_maker := by
  unfold jit_max_amount at h
  cases v with
  | none =>
    cases h
    exact Nat.zero_le _
  | some op =>
    rcases (chbind_ok_iff _ _ _).1 h with ⟨o, _, h⟩
    split at h
    · rw [u64_div_ok h]
      exact Nat.div_le_self _ _
    · split at h
      · rw [u64_div_ok h]
        exact Nat.div_le_self _ _
      · cases h
        exact Nat.le_refl _

theorem calculate_clamped_jit_le {market : PerpMarket} {j j1 : Nat}
    (h : calculate_clamped_jit_base_asset_amount market j = .ok j1) :
    j1 ≤ market.amm.base_asset_amount_with_amm.natAbs := by
  unfold calculate_clamped_jit_base_asset_amount at h
  rcases (chbind_ok_iff _ _ _).1 h with ⟨m, _, h⟩
  rcases (chbind_ok_iff _ _ _).1 h with ⟨d, _, h⟩
  rcases (chbind_ok_iff _ _ _).1 h with ⟨jc, _, h⟩
  rcases (chbind_ok_iff _ _ _).1 h with ⟨maxa, hmax, h⟩
  cases h
  rw [← cast_nat_to_u64_ok hmax]
  exact Nat.min_le_right _ _

/-- C10: `calculate_jit_base_asset_amount` returns `0` when no valid oracle
price is supplied; and any amount it returns is at most half the maker's
amount, a multiple of the market's `order_step_size`, and bounded by
`|base_asset_amount_with_amm|` (it never flips the AMM's net position). -/
theorem C10_jit_base_asset_amount_bounds
    (market : PerpMarket) (maker_base_asset_amount auction_price : Nat)
    (valid_oracle_price : Option Int) (taker_direction : PositionDirection) (r : Nat) :
    (calculate_jit_base_asset_amount market maker_base_asset_amount auction_price none
        taker_direction = .ok 0) ∧
    (calculate_jit_base_asset_amount market maker_base_asset_amount auction_price
        valid_oracle_price taker_direction = .ok r →
      r ≤ maker_base_asset_amount / 2 ∧
      market.amm.order_step_size ∣ r ∧
      r ≤ market.amm.base_asset_amount_with_amm.natAbs) := by
  constructor
  · unfold calculate_jit_base_asset_amount u64_div
    rw [if_neg (by decide)]
    rw [chbind_ok]
    show (jit_max_amount _ none _ _ >>= _) = _
    rfl
  · intro h
    unfold calculate_jit_base_asset_amount at h
    rcases (chbind_ok_iff _ _ _).1 h with ⟨hm, h1, h⟩
    have hhm := u64_div_ok h1
    rcases (chbind_ok_iff _ _ _).1 h with ⟨mj, h2, h⟩
    have hmj := jit_max_amount_le h2
    split at h
    · cases h
      exact ⟨Nat.zero_le _, Dvd.intro 0 rfl, Nat.zero_le _⟩
    · rcases (chbind_ok_iff _ _ _).1 h with ⟨⟨mbids, masks⟩, _, h⟩
      dsimp only at h
      rcases (chbind_ok_iff _ _ _).1 h with ⟨_, _, h⟩
      rcases (chbind_ok_iff _ _ _).1 h with ⟨_, _, h⟩
      rcases (chbind_ok_iff _ _ _).1 h with ⟨_, _, h⟩
      rcases (chbind_ok_iff _ _ _).1 h with ⟨_, _, h⟩
      rcases (chbind_ok_iff _ _ _).1 h with ⟨jit0, _, h⟩
      split at h
      · cases h
        exact ⟨Nat.zero_le _, Dvd.intro 0 rfl, Nat.zero_le _⟩
      · rcases (chbind_ok_iff _ _ _).1 h with ⟨jit1, h9, h⟩
        have hj1 := calculate_clamped_jit_le h9
        obtain ⟨hr, hstep⟩ := standardize_base_asset_amount_ok h
        have hr_le : r ≤ min jit1 mj := by
          rw [hr]
          exact Nat.sub_le _ _
        refine ⟨?_, ?_, ?_⟩
        · calc r ≤ min jit1 mj := hr_le
          _ ≤ mj := Nat.min_le_right _ _
          _ ≤ hm := hmj
          _ = maker_base_asset_amount / 2 := hhm
        · have e := Nat.mod_add_div (min jit1 mj) market.amm.order_step_size
          refine ⟨min jit1 mj / market.amm.order_step_size, ?_⟩
          rw [hr]
          generalize hm0 : min jit1 mj % market.amm.order_step_size = m0 at e ⊢
          generalize hq : min jit1 mj / market.amm.order_step_size = q at e ⊢
          generalize hP : market.amm.order_step_size * q = P at e ⊢
          generalize hJ : min jit1 mj = J at e ⊢
          omega
        · calc r ≤ min jit1 mj := hr_le
          _ ≤ jit1 := Nat.min_le_left _ _
          _ ≤ market.amm.base_asset_amount_with_amm.natAbs := hj1

/-- Witness for C10: at the concrete imbalanced market `market_c10`
(`maker = 10`, auction price at the oracle), the absent-oracle call returns
`0` and the live call returns `5 = maker/2`, a multiple of the step size and
within the AMM's net position. -/
theorem C10_jit_base_asset_amount_bounds_witness :
    calculate_jit_base_asset_amount market_c10 10 100 none PositionDirection.Long = .ok 0 ∧
    (5 ≤ 10 / 2 ∧ market_c10.amm.order_step_size ∣ 5 ∧
      5 ≤ market_c10.amm.base_asset_amount_with_amm.natAbs) :=
  ⟨(C10_jit_base_asset_amount_bounds market_c10 10 100 (some 100) .Long 5).1,
    (C10_jit_base_asset_amount_bounds market_c10 10 100 (some 100) .Long 5).2 rfl⟩

/-! ## Claim C6: non-positive oracle price leaves the TWAP state unchanged -/

/-- C6: if the normalized oracle price or the capped update price is
non-positive, `update_oracle_price_twap` returns `Ok` with the previous
`last_oracle_price_twap` and leaves the AMM (in particular its whole oracle
TWAP state) unchanged — it does not return an error. -/
theorem C6_oracle_twap_nonpositive_noop
    (amm : AMM) (now : Int) (oracle_price_data : OraclePriceData)
    (precomputed_reserve_price : Option Nat) (rp : Nat) (op cp : Int)
    (hr : resolve_reserve_price amm precomputed_reserve_price = .ok rp)
    (hn : normalise_oracle_price amm oracle_price_data (some rp) = .ok op)
    (hs : sanitize_new_price op amm.historical_oracle_data.last_oracle_price_twap = .ok cp)
    (hnp : op ≤ 0 ∨ cp ≤ 0) :
    update_oracle_price_twap amm now oracle_price_data precomputed_reserve_price =
      .ok (amm, amm.historical_oracle_data.last_oracle_price_twap) := by
  unfold update_oracle_price_twap
  rw [hr, chbind_ok, hn, chbind_ok, hs, chbind_ok]
  rw [if_neg (by rcases hnp with h | h <;> rintro ⟨h1, h2⟩ <;> omega)]
  rfl

def opd_c6 : OraclePriceData :=
  { price := -5, confidence := 0, delay := 0, has_sufficient_number_of_data_points := true }

/-- Witness for C6 at a concrete negative oracle sample (`price = -5`,
precomputed reserve price `100`): the update returns the previous TWAP and
the unchanged AMM. -/
theorem C6_oracle_twap_nonpositive_noop_witness :
    update_oracle_price_twap amm0 7 opd_c6 (some 100) =
      .ok (amm0, amm0.historical_oracle_data.last_oracle_price_twap) :=
  C6_oracle_twap_nonpositive_noop amm0 7 opd_c6 (some 100) 100 (-5) (-5)
    rfl rfl rfl (Or.inl (by decide))

/-! ## Claim C5: the funding price-spread clamp -/

/-- C5 counterexample: the claim's bound \"3% of oracle_price_twap\" differs
from the code's `oracle_price_twap / 33`.  At `oracle_price_twap = 10^6` and
`mid_price_twap = 2 * 10^6` the code clamps the spread to `30303`
(`10^6 / 33`), while the exact-3% reading clamps it to `30000`. -/
theorem C5_counterexample :
    clamped_price_spread_calc 2000000 1000000 = .ok 30303 ∧
      clamped_price_spread_spec 2000000 1000000 = .ok 30000 ∧
      (30303 : Int) ≠ 30000 := by
  refine ⟨rfl, rfl, by decide⟩

/-- C5 (amended): in the funding-rate computation the price spread between
the mid-mark TWAP and the oracle TWAP is clamped to
`max(-m, min(price_spread, m))` with `m = oracle_price_twap / 33`
(truncated division — approximately 3.03%, which the source comments call
3%). -/
theorem C5_funding_price_spread_clamp
    (mid_price_twap : Nat) (oracle_price_twap : Int) (c : Int)
    (h : clamped_price_spread_calc mid_price_twap oracle_price_twap = .ok c) :
    c = max (-(int_tdiv oracle_price_twap 33))
        (min ((mid_price_twap : Int) - oracle_price_twap) (int_tdiv oracle_price_twap 33)) := by
  unfold clamped_price_spread_calc at h
  rcases (chbind_ok_iff _ _ _).1 h with ⟨mid, h1, h⟩
  rcases (chbind_ok_iff _ _ _).1 h with ⟨ps, h2, h⟩
  rcases (chbind_ok_iff _ _ _).1 h with ⟨m, h3, h⟩
  cases h
  have e1 : mid = (mid_price_twap : Int) := by
    unfold cast_nat_to_i128 at h1
    split at h1
    · cases h1; rfl
    · cases h1
  have e2 : ps = mid - oracle_price_twap := by
    unfold i128_sub i128_checked at h2
    split at h2
    · cases h2; rfl
    · cases h2
  have e3 := i128_div_ok h3
  subst e1 e2 e3
  rfl

/-- Witness for C5's amended statement at `mid = 2*10^6`,
`oracle_twap = 10^6`: the clamped spread is `30303 = 10^6 / 33`. -/
theorem C5_funding_price_spread_clamp_witness :
    (30303 : Int) = max (-(int_tdiv 1000000 33))
        (min (((2000000 : Nat) : Int) - 1000000) (int_tdiv 1000000 33)) :=
  C5_funding_price_spread_clamp 2000000 1000000 30303 rfl

/-! ## Claim C7: the funding-rate gate is a no-op before the boundary -/

/-- C7: if funding is paused, or the oracle blocks the update, or the next
on-the-hour funding boundary has not been reached
(`time_until_next_update ≠ 0`), then `update_funding_rate` returns
`Ok (market, false)` with the market unchanged; consequently calling it twice
in that state returns \"not updated\" both times with no state change. -/
theorem C7_funding_rate_gate_noop
    (market : PerpMarket) (oracle_price_data : OraclePriceData) (now : Int)
    (guard_rails : OracleGuardRails) (funding_paused : Bool)
    (precomputed_reserve_price : Option Nat) (rp : Nat) (blocked : Bool) (t : Int)
    (hr : resolve_reserve_price market.amm precomputed_reserve_price = .ok rp)
    (hb : block_operation market oracle_price_data guard_rails (some rp) = .ok blocked)
    (ht : on_the_hour_update now market.amm.last_funding_rate_ts market.amm.funding_period =
      .ok t)
    (hgate : funding_paused = true ∨ blocked = true ∨ t ≠ 0) :
    update_funding_rate market oracle_price_data now guard_rails funding_paused
        precomputed_reserve_price = .ok (market, false) ∧
    (update_funding_rate market oracle_price_data now guard_rails funding_paused
        precomputed_reserve_price >>= fun p =>
      update_funding_rate p.1 oracle_price_data now guard_rails funding_paused
        precomputed_reserve_price) = .ok (market, false) := by
  have hvalid : (!funding_paused && !blocked && decide (t = 0)) = false := by
    rcases hgate with h | h | h <;> simp [h]
  have h1 : update_funding_rate market oracle_price_data now guard_rails funding_paused
      precomputed_reserve_price = .ok (market, false) := by
    unfold update_funding_rate
    rw [hr, chbind_ok, hb, chbind_ok, ht, chbind_ok]
    rw [hvalid]
    rfl
  refine ⟨h1, ?_⟩
  rw [h1, chbind_ok]
  exact h1

def opd_c7 : OraclePriceData :=
  { price := 100, confidence := 0, delay := 0, has_sufficient_number_of_data_points := true }

def guard_c7 : OracleGuardRails :=
  { price_divergence :=
      { mark_oracle_divergence_numerator := 1, mark_oracle_divergence_denominator := 10 },
    validity :=
      { slots_before_stale_for_amm := 10, slots_before_stale_for_margin := 120,
        confidence_interval_max_size := 1000, too_volatile_ratio := 5 },
    use_for_liquidations := true }

def market_c7 : PerpMarket :=
  { amm := { amm0 with last_funding_rate_ts := 3600, funding_period := 3600 },
    number_of_users := 1, number_of_users_with_base := 1, next_funding_rate_record_id := 0 }

/-- Witness for C7: one second past the last on-the-hour update
(`now = 3601`, boundary at `7200`), with a healthy oracle and funding not
paused, the updater returns `(market, false)` twice with no state change. -/
theorem C7_funding_rate_gate_noop_witness :
    update_funding_rate market_c7 opd_c7 3601 guard_c7 false (some 100) =
        .ok (market_c7, false) ∧
    (update_funding_rate market_c7 opd_c7 3601 guard_c7 false (some 100) >>= fun p =>
      update_funding_rate p.1 opd_c7 3601 guard_c7 false (some 100)) =
        .ok (market_c7, false) :=
  C7_funding_rate_gate_noop market_c7 opd_c7 3601 guard_c7 false (some 100) 100 false 3599
    rfl rfl rfl (Or.inr (Or.inr (by decide)))

end Drift
